import Mathlib

/-!
Verification of the gesture / physics core of the bude-global-neuro-chain-react
repository against its natural-language specification.

Scalars: JavaScript numbers are modelled by `ℝ` (ideal real arithmetic) in the
main model; timestamps (`Date.now()` milliseconds) by `ℤ`.  A separate model
`JsNum` with an explicit `nan` element captures the IEEE special values where a
claim is specifically about non-finite results.
-/

namespace NeuroChain

/-- A 2D point / vector, as the `{x, y}` objects used throughout the source. -/
structure Vec2 where
  x : ℝ
  y : ℝ

/-- A MediaPipe hand landmark `{x, y, z}` (GestureVocabulary.js, GestureWorker.js). -/
structure Pt3 where
  x : ℝ
  y : ℝ
  z : ℝ

/-! ## Motion smoother (GestureWorker.js, class Smoother)

Double-exponential (Holt) smoothing.  `s = null` before the first sample is
modelled with `Option`; the constructor sets `b = {x: 0, y: 0}`. -/

/-- State of `class Smoother` in GestureWorker.js: coefficients `alpha`, `beta`,
level `s` (null before the first sample) and trend `b`. -/
structure Smoother where
  alpha : ℝ
  beta : ℝ
  s : Option Vec2
  b : Vec2

/-- `new Smoother(alpha, beta)`: level null, trend zero. -/
noncomputable def Smoother.new (alpha beta : ℝ) : Smoother :=
  { alpha := alpha, beta := beta, s := none, b := ⟨0, 0⟩ }

/-- `Smoother.update(pos)`: on the first sample store and return the raw value;
afterwards `s' = α·pos + (1-α)(s+b)`, `b' = β(s'-s) + (1-β)b`, returning `s'`. -/
noncomputable def Smoother.update (sm : Smoother) (pos : Vec2) : Smoother × Vec2 :=
  match sm.s with
  | none => ({ sm with s := some pos }, pos)
  | some prevS =>
    let sx := sm.alpha * pos.x + (1 - sm.alpha) * (prevS.x + sm.b.x)
    let sy := sm.alpha * pos.y + (1 - sm.alpha) * (prevS.y + sm.b.y)
    let bx := sm.beta * (sx - prevS.x) + (1 - sm.beta) * sm.b.x
    let bYv := sm.beta * (sy - prevS.y) + (1 - sm.beta) * sm.b.y
    ({ sm with s := some ⟨sx, sy⟩, b := ⟨bx, bYv⟩ }, ⟨sx, sy⟩)

/-! ## Gesture vocabulary

Two implementations exist in the source.  GestureWorker.js carries
self-contained 2D geometry (`distance` ignores `z`) with extension threshold
0.7 and fist threshold 0.1; GestureVocabulary.js uses 3D distance with
extension threshold 0.8 and fist threshold 0.08.  A hand is the array of 21
landmarks, modelled as a function from the landmark index. -/

/-- One hand's landmark array, indexed by the MediaPipe anatomical indices
(wrist 0, index MCP/PIP/TIP 5/6/8, middle 9/10/12, ring 13/14/16,
pinky 17/18/20, fingertips 4/8/12/16/20). -/
def Hand : Type := ℕ → Pt3

/-- The `{x, y}` view of a landmark (the worker's geometry reads only x,y). -/
def Pt3.xy (p : Pt3) : Vec2 := ⟨p.x, p.y⟩

/-- GestureWorker.js `distance`: 2D Euclidean distance. -/
noncomputable def wDistance (a b : Vec2) : ℝ :=
  Real.sqrt ((a.x - b.x) ^ 2 + (a.y - b.y) ^ 2)

/-- GestureWorker.js `centroid`: componentwise mean of `{x, y}` points. -/
noncomputable def wCentroid (ps : List Vec2) : Vec2 :=
  ⟨(ps.map Vec2.x).sum / ps.length, (ps.map Vec2.y).sum / ps.length⟩

/-- GestureWorker.js `VOCABULARY.isExtended`: tip–pip distance exceeds 0.7
times the pip–mcp distance. -/
noncomputable def wIsExtended (l : Hand) (tip pip mcp : ℕ) : Bool :=
  decide (wDistance (l tip).xy (l pip).xy > wDistance (l pip).xy (l mcp).xy * 0.7)

/-- GestureWorker.js `VOCABULARY.isPointing`: only the index is extended. -/
noncomputable def wIsPointing (l : Hand) : Bool :=
  wIsExtended l 8 6 5 && !wIsExtended l 12 10 9 && !wIsExtended l 16 14 13
    && !wIsExtended l 20 18 17

/-- GestureWorker.js `VOCABULARY.isTwoFingerPoint`: index and middle extended,
ring and pinky not. -/
noncomputable def wIsTwoFingerPoint (l : Hand) : Bool :=
  wIsExtended l 8 6 5 && wIsExtended l 12 10 9 && !wIsExtended l 16 14 13
    && !wIsExtended l 20 18 17

/-- GestureWorker.js `VOCABULARY.isOpenPalm`: at least 3 of the four fingers
index/middle/ring/pinky extended. -/
noncomputable def wIsOpenPalm (l : Hand) : Bool :=
  decide (3 ≤ (([(8, 6, 5), (12, 10, 9), (16, 14, 13), (20, 18, 17)] :
    List (ℕ × ℕ × ℕ)).filter (fun f => wIsExtended l f.1 f.2.1 f.2.2)).length)

/-- GestureWorker.js `VOCABULARY.isFist` (default threshold 0.1): mean distance
of the five fingertips to the palm centroid (wrist, index MCP, middle MCP)
below the threshold. -/
noncomputable def wIsFist (l : Hand) : Bool :=
  let p := wCentroid [(l 0).xy, (l 5).xy, (l 9).xy]
  decide ((([4, 8, 12, 16, 20] : List ℕ).map
      (fun t => wDistance (l t).xy p)).sum / 5 < 0.1)

/-- GestureVocabulary.js `distance`: 3D Euclidean distance. -/
noncomputable def vDistance (a b : Pt3) : ℝ :=
  Real.sqrt ((a.x - b.x) ^ 2 + (a.y - b.y) ^ 2 + (a.z - b.z) ^ 2)

/-- GestureVocabulary.js `VOCABULARY.isExtended`: tip–pip distance exceeds 0.8
times the pip–mcp distance (3D). -/
noncomputable def vIsExtended (l : Hand) (tip pip mcp : ℕ) : Bool :=
  decide (vDistance (l tip) (l pip) > vDistance (l pip) (l mcp) * 0.8)

/-- GestureVocabulary.js `VOCABULARY.isOpenPalm`: ALL four of
index/middle/ring/pinky extended (`.every`). -/
noncomputable def vIsOpenPalm (l : Hand) : Bool :=
  ([(8, 6, 5), (12, 10, 9), (16, 14, 13), (20, 18, 17)] :
    List (ℕ × ℕ × ℕ)).all (fun f => vIsExtended l f.1 f.2.1 f.2.2)

/-! ## Temporal stabilizer, worker variant (GestureWorker.js, class StateMachine)

`activeStates` is a JS `Map` (insertion-ordered); we model it as an association
list.  The update first walks the detected set (creating / refreshing entries
and collecting states held longer than `holdDuration`), then walks the map,
dropping entries unseen for more than `gracePeriod` and keeping (still active)
the rest. -/

/-- Per-state data of the worker state machine: `{ startTime, lastSeen }`. -/
structure WState where
  startTime : ℤ
  lastSeen : ℤ
deriving DecidableEq

/-- The slice of `config.stateMachine` the worker machine reads. -/
structure WConfig where
  holdDuration : ℤ
  gracePeriod : ℤ
deriving DecidableEq

/-- JS `Set.add`: append if not already present. -/
def setAdd (l : List String) (s : String) : List String :=
  if s ∈ l then l else l ++ [s]

/-- JS `Map.set`: replace the value in place if the key exists, else append. -/
def mapSet {α : Type} (l : List (String × α)) (k : String) (v : α) : List (String × α) :=
  match l with
  | [] => [(k, v)]
  | (k', v') :: rest => if k' = k then (k, v) :: rest else (k', v') :: mapSet rest k v

/-- Worker state machine: the `activeStates` map. -/
structure WorkerSM where
  states : List (String × WState)
deriving DecidableEq

/-- Body of the `detectedThisFrame.forEach` loop of `StateMachine.update`:
create or refresh the entry for one detected state, and add it to the active
set if held longer than `holdDuration`. -/
def wDetectedStep (cfg : WConfig) (now : ℤ)
    (acc : List (String × WState) × List String) (g : String) :
    List (String × WState) × List String :=
  let entry : WState :=
    match acc.1.lookup g with
    | none => ⟨now, now⟩
    | some d => ⟨d.startTime, now⟩
  let sts := mapSet acc.1 g entry
  let act := if now - entry.startTime > cfg.holdDuration then setAdd acc.2 g else acc.2
  (sts, act)

/-- Body of the cleanup loop of `StateMachine.update`: keep entries still
detected, drop entries unseen for more than `gracePeriod`, and report (keep
active) kept entries held longer than `holdDuration`. -/
def wCleanupStep (cfg : WConfig) (detected : List String) (now : ℤ)
    (acc : List (String × WState) × List String) (p : String × WState) :
    List (String × WState) × List String :=
  if p.1 ∈ detected then (acc.1 ++ [p], acc.2)
  else if now - p.2.lastSeen > cfg.gracePeriod then (acc.1, acc.2)
  else if now - p.2.startTime > cfg.holdDuration then (acc.1 ++ [p], setAdd acc.2 p.1)
  else (acc.1 ++ [p], acc.2)

/-- `StateMachine.update(detectedThisFrame)` of GestureWorker.js at time `now`:
returns the new machine and the `active` set (as the list the worker posts). -/
def WorkerSM.update (cfg : WConfig) (sm : WorkerSM) (detected : List String)
    (now : ℤ) : WorkerSM × List String :=
  let step1 := detected.foldl (wDetectedStep cfg now) (sm.states, [])
  let step2 := step1.1.foldl (wCleanupStep cfg detected now) ([], step1.2)
  (⟨step2.1⟩, step2.2)

/-! ## Temporal stabilizer, four-state variant (GestureStateMachine.js)

IDLE / POTENTIAL / ACTIVE / EXIT_PENDING per gesture name, with hold, exit and
cooldown durations and a per-gesture `enabled` vocabulary. -/

/-- `GESTURE_STATES` of GestureStateMachine.js. -/
inductive GState where
  | IDLE
  | POTENTIAL
  | ACTIVE
  | EXIT_PENDING
deriving DecidableEq

/-- Per-gesture record: `{ state, startTime, lastSeenTime }`. -/
structure GRecord where
  state : GState
  startTime : ℤ
  lastSeenTime : ℤ
deriving DecidableEq

/-- Configuration read by GestureStateMachine: `stateMachine` durations and the
`vocabulary` map of gesture name to `enabled` flag (insertion order kept). -/
structure GSMConfig where
  holdDuration : ℤ
  exitDuration : ℤ
  cooldown : ℤ
  vocabulary : List (String × Bool)
deriving DecidableEq

/-- GestureStateMachine state: the `states` and `cooldowns` maps. -/
structure GSM where
  states : List (String × GRecord)
  cooldowns : List (String × ℤ)
deriving DecidableEq

/-- `isInCooldown(gestureName, now)`: `now - lastExit < cooldown`, with `0` for
a gesture that never exited. -/
def GSM.isInCooldown (cfg : GSMConfig) (m : GSM) (g : String) (now : ℤ) : Bool :=
  let lastExit := (m.cooldowns.lookup g).getD 0
  now - lastExit < cfg.cooldown

/-- The `switch` body of `GestureStateMachine.update` for one gesture: given the
current record, whether the gesture is seen this frame and the time, produce the
updated record, the new cooldown entry (if any) and whether the gesture is added
to the returned active set. -/
def gsmStepGesture (cfg : GSMConfig) (m : GSM) (g : String) (isSeen : Bool)
    (now : ℤ) (cur : GRecord) : GRecord × Option ℤ × Bool :=
  match cur.state with
  | .IDLE =>
    if isSeen && !(GSM.isInCooldown cfg m g now) then
      (⟨.POTENTIAL, now, now⟩, none, false)
    else (cur, none, false)
  | .POTENTIAL =>
    if isSeen then
      if now - cur.startTime ≥ cfg.holdDuration then
        (⟨.ACTIVE, now, now⟩, none, false)
      else (⟨.POTENTIAL, cur.startTime, now⟩, none, false)
    else (⟨.IDLE, cur.startTime, cur.lastSeenTime⟩, none, false)
  | .ACTIVE =>
    if isSeen then (⟨.ACTIVE, cur.startTime, now⟩, none, true)
    else (⟨.EXIT_PENDING, now, cur.lastSeenTime⟩, none, false)
  | .EXIT_PENDING =>
    if isSeen then (⟨.ACTIVE, cur.startTime, now⟩, none, true)
    else if now - cur.startTime ≥ cfg.exitDuration then
      (⟨.IDLE, cur.startTime, cur.lastSeenTime⟩, some now, false)
    else (cur, none, false)

/-- One iteration of the vocabulary loop of `GestureStateMachine.update`:
skip disabled gestures, run the switch, write back the record (and cooldown
timestamp, if the gesture just exited) and extend the active set. -/
def gsmFoldStep (cfg : GSMConfig) (detected : List String) (now : ℤ)
    (acc : GSM × List String) (v : String × Bool) : GSM × List String :=
  if !v.2 then acc else
  let g := v.1
  let cur := (acc.1.states.lookup g).getD ⟨.IDLE, 0, 0⟩
  let r := gsmStepGesture cfg acc.1 g (detected.contains g) now cur
  let m' : GSM := ⟨mapSet acc.1.states g r.1,
    match r.2.1 with
    | some t => mapSet acc.1.cooldowns g t
    | none => acc.1.cooldowns⟩
  (m', if r.2.2 then setAdd acc.2 g else acc.2)

/-- `GestureStateMachine.update(detectedGestures)` at time `now`: iterate the
vocabulary in order, skipping disabled gestures, and return the machine and the
set of gestures in ACTIVE state that were seen (the `activeGestures` set). -/
def GSM.update (cfg : GSMConfig) (m : GSM) (detected : List String)
    (now : ℤ) : GSM × List String :=
  cfg.vocabulary.foldl (gsmFoldStep cfg detected now) (m, [])

/-- Run a script of `(now, detected)` updates from a machine, collecting the
active set returned by each update. -/
def GSM.run (cfg : GSMConfig) (m : GSM) (script : List (ℤ × List String)) :
    GSM × List (List String) :=
  script.foldl (fun acc ev =>
    let r := GSM.update cfg acc.1 ev.2 ev.1
    (r.1, acc.2 ++ [r.2])) (m, [])

/-- The gesture configuration of config/gesture.js restricted to one enabled
gesture: holdDuration 100, exitDuration 300, cooldown 500. -/
def vocabPan : GSMConfig := ⟨100, 300, 500, [("NAV_PAN", true)]⟩

/-- A concrete hand with index, middle and ring clearly extended
(tip–pip = 0.2, pip–mcp = 0.1 along the y axis) and the pinky curled
(tip–pip = 0.05), each finger in its own x column, z = 0 throughout. -/
noncomputable def handC2 : Hand := fun i =>
  if i = 5 then ⟨0.1, 0.5, 0⟩ else if i = 6 then ⟨0.1, 0.4, 0⟩
  else if i = 8 then ⟨0.1, 0.2, 0⟩
  else if i = 9 then ⟨0.2, 0.5, 0⟩ else if i = 10 then ⟨0.2, 0.4, 0⟩
  else if i = 12 then ⟨0.2, 0.2, 0⟩
  else if i = 13 then ⟨0.3, 0.5, 0⟩ else if i = 14 then ⟨0.3, 0.4, 0⟩
  else if i = 16 then ⟨0.3, 0.2, 0⟩
  else if i = 17 then ⟨0.4, 0.5, 0⟩ else if i = 18 then ⟨0.4, 0.4, 0⟩
  else if i = 20 then ⟨0.4, 0.45, 0⟩
  else ⟨0, 0, 0⟩

/-! ## Intent bus (IntentBus.js)

Subscribers are held in a `Map(intent -> Set(callback))`; we model the map as a
function from intent name to the (insertion-ordered) list of handlers.  A
handler is a function that may throw, modelled with `Except`; `emit` wraps every
callback call in try/catch, so a throwing handler is logged and skipped, never
propagated.  `emit` returns, besides the updated bus, the trace of
`(handler id, event)` invocations actually performed; its `Except` result type
shows that an uncaught handler exception would have aborted emission. -/

/-- An intent event: `{intent, payload, timestamp, source}` (types.js).  The
payload is the merge of `createDefaultPayload()` with the partial payload, a
string-keyed number map in JS; we model it as a lookup function. -/
structure IntentEvent where
  intent : String
  payload : String → Option ℝ
  timestamp : ℤ
  source : String

/-- A subscriber callback, tagged with an identity (JS function identity) and a
body that either returns or throws. -/
structure Handler where
  hid : ℕ
  run : IntentEvent → Except String Unit

/-- IntentBus state: listeners map, last event, paused flag. -/
structure IntentBus where
  listeners : String → List Handler
  lastEvent : Option IntentEvent
  paused : Bool

/-- Invoke one list of subscribers in order, producing the invocation trace.
Each callback runs inside the `try { callback(event) } catch {
console.error(...) }` of `IntentBus.emit`: a thrown error is caught and the
`forEach` continues, so both outcomes of `h.run ev` fall through to the
remaining subscribers.  (Without the catch, the `.error` branch would have to
return `.error`, aborting the remaining invocations.) -/
def invokeAll : List Handler → IntentEvent → Except String (List (ℕ × IntentEvent))
  | [], _ => .ok []
  | h :: rest, ev =>
    match h.run ev with
    | .ok _ => (invokeAll rest ev).map (fun t => (h.hid, ev) :: t)
    | .error _ => (invokeAll rest ev).map (fun t => (h.hid, ev) :: t)

/-- `IntentBus.emit(event)`: no-op while paused; otherwise record `lastEvent`,
invoke the specific-intent subscribers, then the wildcard subscribers. -/
def IntentBus.emit (bus : IntentBus) (ev : IntentEvent) :
    Except String (IntentBus × List (ℕ × IntentEvent)) := do
  if bus.paused then return (bus, [])
  let bus' : IntentBus := { bus with lastEvent := some ev }
  let t1 ← invokeAll (bus.listeners ev.intent) ev
  let t2 ← invokeAll (bus.listeners "*") ev
  return (bus', t1 ++ t2)

/-- A concrete bus for the C6 witness: a throwing subscriber and a normal
subscriber on PAN, nothing else. -/
def busC6 : IntentBus :=
  ⟨fun k => if k = "PAN" then
      [⟨0, fun _ => Except.error "boom"⟩, ⟨1, fun _ => Except.ok ()⟩]
    else [], none, false⟩

/-- A concrete PAN event for the C6 witness. -/
def evC6 : IntentEvent := ⟨"PAN", fun _ => none, 1000, "webcam"⟩

/-! ## Gesture worker PROCESS pipeline (GestureWorker.js onmessage)

The worker keeps, between frames, the state machine, the two smoother
instances (`smoother` for position, `zoomSmoother` for the two-hand zoom
ratio), the previous inter-palm distance, the last smoothed position and the
last zoom scale.  `Date.now()` is passed in as `now`. -/

/-- The slice of the INIT config read by PROCESS. -/
structure WorkerConfig where
  smoothingFactor : ℝ
  smoothingBeta : ℝ
  zoomAlpha : ℝ
  adaptiveSmoothing : Bool
  sm : WConfig

/-- Worker module-level mutable state. -/
structure WorkerState where
  sm : WorkerSM
  smoother : Smoother
  zoomSmoother : Smoother
  lastPalmDist : Option ℝ
  lastSmoothedPos : Option Vec2
  lastZoomScale : ℝ

/-- The INIT handler: fresh machine and smoothers
(`new Smoother(factor, beta)`, `new Smoother(zoomAlpha, 0.05)`). -/
noncomputable def workerInit (cfg : WorkerConfig) : WorkerState :=
  ⟨⟨[]⟩, Smoother.new cfg.smoothingFactor cfg.smoothingBeta,
   Smoother.new cfg.zoomAlpha 0.05, none, none, 1⟩

/-- Per-hand classification record (`handStates` in PROCESS); `pos` is the
palm centroid of wrist, index MCP and middle MCP. -/
structure HandState where
  isPointing : Bool
  isTwoFinger : Bool
  isFist : Bool
  isOpen : Bool
  pos : Vec2

instance : Inhabited HandState := ⟨⟨false, false, false, false, ⟨0, 0⟩⟩⟩

/-- The `multiHandLandmarks.map(...)` classification. -/
noncomputable def classifyHand (l : Hand) : HandState :=
  ⟨wIsPointing l, wIsTwoFingerPoint l, wIsFist l, wIsOpenPalm l,
   wCentroid [(l 0).xy, (l 5).xy, (l 9).xy]⟩

/-- The raw detected set: PRECISION_ROTATE / LOCK_MODE / NAV_PAN per hand
flags, then INSPECT_MODE from the two-hand rule; the JS `Set` is an
insertion-ordered list with `setAdd`. -/
def rawDetectedOf (hs : List HandState) (inspect : Bool) : List String :=
  let l1 := hs.foldl (fun acc st =>
    let acc1 := if st.isPointing then setAdd acc "PRECISION_ROTATE" else acc
    let acc2 := if st.isFist then setAdd acc1 "LOCK_MODE" else acc1
    if st.isOpen then setAdd acc2 "NAV_PAN" else acc2) []
  if inspect then setAdd l1 "INSPECT_MODE" else l1

/-- The RESULTS message posted after PROCESS. -/
structure ResultsMsg where
  activeStates : List String
  pos : Option Vec2
  zoomScale : ℝ
  inspectPos : Option Vec2
  handCount : ℕ

/-- The 21-landmark 2D centroid used for the two-hand zoom distance. -/
noncomputable def hand21Centroid (l : Hand) : Vec2 :=
  wCentroid ((List.range 21).map (fun i => (l i).xy))

/-- The two-hand "hold and point" inspection rule: a pointing position when
one hand is open-or-fist and the other two-finger-points. -/
def inspectPosOf (hs : List HandState) : Option Vec2 :=
  match hs with
  | [h0, h1] =>
    if (h0.isOpen || h0.isFist) && h1.isTwoFinger then some h1.pos
    else if (h1.isOpen || h1.isFist) && h0.isTwoFinger then some h0.pos
    else none
  | _ => none

/-- The reference position of a frame: the palm centroid of the single hand,
or the midpoint of both palm centroids when two hands are present. -/
noncomputable def rawPalmOf (hands : List Hand) : Vec2 :=
  let handStates := hands.map classifyHand
  if hands.length = 2 then
    wCentroid [(handStates.getD 0 default).pos, (handStates.getD 1 default).pos]
  else (handStates.getD 0 default).pos

/-- Adaptive smoothing: when configured and a previous smoothed position
exists, the alpha becomes `min(0.8, factor + distance · 2)`. -/
noncomputable def adjustedSmoother (cfg : WorkerConfig) (st : WorkerState)
    (rawPalm : Vec2) : Smoother :=
  match cfg.adaptiveSmoothing, st.lastSmoothedPos with
  | true, some lp =>
    { st.smoother with
        alpha := min 0.8 (cfg.smoothingFactor + wDistance rawPalm lp * 2) }
  | _, _ => st.smoother

/-- The PROCESS handler for one frame at time `now`: classify hands, build the
raw detected set, smooth the (x-mirrored) reference position — with adaptive
alpha when configured — update the zoom ratio from the two-hand palm distance,
run the state machine, and post the RESULTS message.  A frame with zero hands
resets the zoom baseline and still posts a message (raw detected set empty). -/
noncomputable def processFrame (cfg : WorkerConfig) (now : ℤ)
    (hands : List Hand) (st : WorkerState) : WorkerState × ResultsMsg :=
  match hands with
  | [] =>
    let smr := WorkerSM.update cfg.sm st.sm [] now
    ({ st with sm := smr.1, lastPalmDist := none, lastZoomScale := 1 },
     ⟨smr.2, st.lastSmoothedPos, 1, none, 0⟩)
  | h0 :: rest =>
    let handStates := (h0 :: rest).map classifyHand
    let inspect := inspectPosOf handStates
    let rawDetected := rawDetectedOf handStates inspect.isSome
    let rawPalm : Vec2 := rawPalmOf (h0 :: rest)
    let sm1 : Smoother := adjustedSmoother cfg st rawPalm
    let su := sm1.update ⟨1 - rawPalm.x, rawPalm.y⟩
    let zoom : Smoother × Option ℝ × ℝ :=
      if (h0 :: rest).length = 2 then
        let d := wDistance (hand21Centroid h0) (hand21Centroid (rest.getD 0 (fun _ => ⟨0, 0, 0⟩)))
        match st.lastPalmDist with
        | some pd =>
          let zs := st.zoomSmoother.update ⟨d / pd, 0⟩
          (zs.1, some d, zs.2.x)
        | none => (st.zoomSmoother, some d, st.lastZoomScale)
      else (st.zoomSmoother, none, 1)
    let smr := WorkerSM.update cfg.sm st.sm rawDetected now
    ({ sm := smr.1, smoother := su.1, zoomSmoother := zoom.1,
       lastPalmDist := zoom.2.1, lastSmoothedPos := some su.2,
       lastZoomScale := zoom.2.2 },
     ⟨smr.2, some su.2, zoom.2.2, inspect, (h0 :: rest).length⟩)

/-- The worker config used by the C3 counterexample: the default smoothing
factor 0.3, trend beta 0.1, zoomAlpha 0.2, adaptive smoothing off,
holdDuration 100, gracePeriod 250. -/
noncomputable def cfgC3 : WorkerConfig := ⟨0.3, 0.1, 0.2, false, ⟨100, 250⟩⟩

/-- A hand whose 21 landmarks all sit at (1, 0): reference position (1, 0),
mirrored to x = 0. -/
noncomputable def handA : Hand := fun _ => ⟨1, 0, 0⟩

/-- A hand whose 21 landmarks all sit at (0, 0): reference position (0, 0),
mirrored to x = 1. -/
noncomputable def handB : Hand := fun _ => ⟨0, 0, 0⟩

/-! ## Webcam gesture controller (WebcamGestureController.js)

`handleWorkerResults` turns a RESULTS message into intent-bus events:
HOVER_FOCUS with the clamped position, PAN/ROTATE deltas against the previous
reference position (deadzone-gated, PAN scaled by the inverse zoom level times
2), LOCK level-triggered, ZOOM when the scale is away from neutral. -/

/-- The `config.stabilization` deadzones the controller reads. -/
structure CtrlConfig where
  panDeadzone : ℝ
  rotateDeadzone : ℝ
  zoomDeadzone : ℝ

/-- Controller state: current zoom level, previous reference position
(`lastPalm`) and current smoothed position. -/
structure CtrlState where
  zoomLevel : ℝ
  lastPalm : Option Vec2
  smoothedPosition : Vec2

/-- `Math.max(0, Math.min(1, t))`. -/
noncomputable def clamp01 (t : ℝ) : ℝ := max 0 (min 1 t)

/-- `createIntentEvent`: merge the partial payload over the default payload
(deltaX 0, deltaY 0, scale 1, rotation 0). -/
noncomputable def mkIntentEvent (intent : String) (pl : List (String × ℝ))
    (now : ℤ) (src : String) : IntentEvent :=
  ⟨intent,
   fun k => match pl.lookup k with
     | some v => some v
     | none => ([("deltaX", (0 : ℝ)), ("deltaY", 0), ("scale", 1),
         ("rotation", 0)]).lookup k,
   now, src⟩

/-- The controller's smoothed position after a message: the received position
clamped to [0,1] on both axes, or unchanged if the message carries none. -/
noncomputable def ctrlNewSmoothed (st : CtrlState) (pos : Option Vec2) : Vec2 :=
  match pos with
  | some p => ⟨clamp01 p.x, clamp01 p.y⟩
  | none => st.smoothedPosition

/-- One iteration of the `activeStates.forEach` switch. -/
noncomputable def ctrlIntentStep (cfg : CtrlConfig) (now : ℤ) (zoomLevel : ℝ)
    (lastPalm : Option Vec2) (sp : Vec2) (acc : List IntentEvent) (s : String) :
    List IntentEvent :=
  if s = "NAV_PAN" then
    match lastPalm with
    | some lp =>
      let dx := sp.x - lp.x
      let dy := sp.y - lp.y
      if |dx| > cfg.panDeadzone ∨ |dy| > cfg.panDeadzone then
        acc ++ [mkIntentEvent "PAN"
          [("deltaX", dx * (1 / zoomLevel) * 2), ("deltaY", dy * (1 / zoomLevel) * 2)]
          now "webcam"]
      else acc
    | none => acc
  else if s = "PRECISION_ROTATE" then
    match lastPalm with
    | some lp =>
      let dx := sp.x - lp.x
      if |dx| > cfg.rotateDeadzone then
        acc ++ [mkIntentEvent "ROTATE" [("deltaX", dx)] now "webcam"]
      else acc
    | none => acc
  else if s = "LOCK_MODE" then acc ++ [mkIntentEvent "LOCK" [] now "webcam"]
  else acc

/-- `WebcamGestureController.handleWorkerResults` on a RESULTS message:
returns the updated controller state and the list of emitted intent events. -/
noncomputable def handleWorkerResults (cfg : CtrlConfig) (now : ℤ)
    (st : CtrlState) (msg : ResultsMsg) : CtrlState × List IntentEvent :=
  let sp := ctrlNewSmoothed st msg.pos
  let evs1 : List IntentEvent :=
    match msg.pos with
    | some _ => [mkIntentEvent "HOVER_FOCUS" [("x", sp.x), ("y", sp.y)] now "webcam"]
    | none => []
  let evs2 := msg.activeStates.foldl
    (ctrlIntentStep cfg now st.zoomLevel st.lastPalm sp) []
  let evs3 :=
    if msg.zoomScale ≠ 0 ∧ msg.zoomScale ≠ 1 ∧
        |msg.zoomScale - 1| > cfg.zoomDeadzone then
      [mkIntentEvent "ZOOM" [("scale", msg.zoomScale)] now "webcam"]
    else []
  ({ st with smoothedPosition := sp, lastPalm := some sp }, evs1 ++ evs2 ++ evs3)

/-- `setZoomLevel(level)`. -/
def setZoomLevel (st : CtrlState) (level : ℝ) : CtrlState :=
  { st with zoomLevel := level }

/-! ## Physics worker (workers/physics.worker.js)

Nodes are mutated in place by the JS loops; the embedding threads the node list
through index-based updates.  Positions are only read during the force loops
(only velocities are written), so the sequential updates below read and write
exactly what the source does. -/

/-- A simulated node `{id, x, y, vx, vy, cluster}`. -/
structure PNode where
  id : String
  x : ℝ
  y : ℝ
  vx : ℝ
  vy : ℝ
  cluster : String

instance : Inhabited PNode := ⟨⟨"", 0, 0, 0, 0, ""⟩⟩

/-- An edge `{source, target}` of node ids. -/
structure PEdge where
  source : String
  target : String

/-- One iteration of the pairwise repulsion loop (`REPULSION_FORCE = 4000`,
epsilon `0.1` added to the distance): push nodes `i` and `j` apart. -/
noncomputable def applyPair (ns : List PNode) (i j : ℕ) : List PNode :=
  match ns.get? i, ns.get? j with
  | some a, some b =>
    let dx := a.x - b.x
    let dy := a.y - b.y
    let distSq := dx * dx + dy * dy
    let dist := Real.sqrt distSq + 0.1
    let force := 4000 / (dist * dist)
    let fx := dx / dist * force
    let fy := dy / dist * force
    let ns1 := ns.set i { a with vx := a.vx + fx, vy := a.vy + fy }
    match ns1.get? j with
    | some b1 => ns1.set j { b1 with vx := b1.vx - fx, vy := b1.vy - fy }
    | none => ns1
  | _, _ => ns

/-- The `for i / for j = i+1` double loop of the repulsion phase. -/
noncomputable def repulsion (ns : List PNode) : List PNode :=
  (List.range ns.length).foldl (fun acc i =>
    (List.range' (i + 1) (ns.length - (i + 1))).foldl
      (fun acc2 j => applyPair acc2 i j) acc) ns

/-- `nodeMap.get(id)`: the map is built by `nodes.forEach(n => set(n.id, n))`,
so a duplicated id resolves to the LAST node with that id. -/
def lastIdxOf (ns : List PNode) (nid : String) : Option ℕ :=
  ((ns.enum.filter (fun p => p.2.id == nid)).getLast?).map (fun p => p.1)

/-- One iteration of the spring-attraction loop (`SPRING_LENGTH = 120`,
`SPRING_FORCE = 0.08`): pull the edge's endpoints toward rest length.  Edges
with a missing endpoint are skipped.  NOTE the division `dx / dist` is not
guarded: `dist` may be zero (see the JsNum model below for the IEEE view). -/
noncomputable def applyEdge (ns : List PNode) (e : PEdge) : List PNode :=
  match lastIdxOf ns e.source, lastIdxOf ns e.target with
  | some si, some ti =>
    let s := ns.getD si default
    let t := ns.getD ti default
    let dx := s.x - t.x
    let dy := s.y - t.y
    let dist := Real.sqrt (dx * dx + dy * dy)
    let force := (dist - 120) * 0.08
    let fx := dx / dist * force
    let fy := dy / dist * force
    let ns1 := ns.set si { s with vx := s.vx - fx, vy := s.vy - fy }
    let t1 := ns1.getD ti default
    ns1.set ti { t1 with vx := t1.vx + fx, vy := t1.vy + fy }
  | _, _ => ns

/-- The `edges.forEach` attraction phase. -/
noncomputable def attraction (ns : List PNode) (es : List PEdge) : List PNode :=
  es.foldl applyEdge ns

/-- Grid layout: per-index target slot in a near-square grid
(`GRID_COLS = ceil(sqrt(n*1.5))`, spacing 150), velocity nudged by 5% of the
offset. -/
noncomputable def gridForces (ns : List PNode) : List PNode :=
  let cols : ℕ := ⌈Real.sqrt ((ns.length : ℝ) * 1.5)⌉₊
  ns.enum.map (fun p =>
    let node := p.2
    let col := p.1 % cols
    let row := p.1 / cols
    let targetX := ((col : ℝ) - (cols : ℝ) / 2) * 150
    let targetY := ((row : ℝ) - (cols : ℝ) / 2) * 150
    { node with vx := node.vx + (targetX - node.x) * 0.05,
                vy := node.vy + (targetY - node.y) * 0.05 })

/-- Radial layout: ring radius from the cluster's position in `clusterKeys`
(missing cluster: one ring beyond the last), angle a hash (char-code sum mod
360, in degrees) of the node id; velocity nudged by 5% of the offset. -/
noncomputable def radialForces (clusterKeys : Option (List String))
    (ns : List PNode) : List PNode :=
  ns.map (fun node =>
    let clusterIndex : ℤ :=
      match clusterKeys with
      | some ks =>
        match ks.indexOf? node.cluster with
        | some i => (i : ℤ)
        | none => -1
      | none => -1
    let ringIndex : ℤ :=
      if clusterIndex = -1 then
        (match clusterKeys with | some ks => (ks.length : ℤ) | none => 0)
      else clusterIndex
    let radius : ℝ := 200 + (ringIndex : ℝ) * 150
    let angle : ℝ :=
      (((node.id.data.map Char.toNat).sum % 360 : ℕ) : ℝ) * (Real.pi / 180)
    let targetX := Real.cos angle * radius
    let targetY := Real.sin angle * radius
    { node with vx := node.vx + (targetX - node.x) * 0.05,
                vy := node.vy + (targetY - node.y) * 0.05 })

/-- Centering (`CENTER_FORCE = 0.005`) then damping (`DAMPING = 0.85`), applied
to every node in every mode. -/
noncomputable def dampedVel (n : PNode) : ℝ × ℝ :=
  ((n.vx - n.x * 0.005) * 0.85, (n.vy - n.y * 0.005) * 0.85)

/-- The speed clamp: if the magnitude exceeds 50 rescale to 50; if the
(pre-clamp) magnitude is below 0.1 zero the velocity. -/
noncomputable def clampVelocity (v : ℝ × ℝ) : ℝ × ℝ :=
  let vMag := Real.sqrt (v.1 * v.1 + v.2 * v.2)
  let w := if vMag > 50 then (v.1 / vMag * 50, v.2 / vMag * 50) else v
  if vMag < 0.1 then ((0 : ℝ), (0 : ℝ)) else w

/-- The common per-node tail of STEP: centering, damping, speed clamp, then
`position += velocity`. -/
noncomputable def integrateNode (n : PNode) : PNode :=
  let w := clampVelocity (dampedVel n)
  { n with vx := w.1, vy := w.2, x := n.x + w.1, y := n.y + w.2 }

/-- The layout/physics force phase of STEP, dispatched on `layoutMode` exactly
as the source's if/else chain ('grid' / 'radial' / force-directed default). -/
noncomputable def forcesPhase (layoutMode : String)
    (clusterKeys : Option (List String)) (ns : List PNode) (es : List PEdge) :
    List PNode :=
  if layoutMode = "grid" then gridForces ns
  else if layoutMode = "radial" then radialForces clusterKeys ns
  else attraction (repulsion ns) es

/-- A full STEP over the node list. -/
noncomputable def stepNodes (layoutMode : String)
    (clusterKeys : Option (List String)) (ns : List PNode) (es : List PEdge) :
    List PNode :=
  (forcesPhase layoutMode clusterKeys ns es).map integrateNode

/-- `totalEnergy`: sum of squared speeds. -/
noncomputable def totalEnergy (ns : List PNode) : ℝ :=
  (ns.map (fun n => n.vx * n.vx + n.vy * n.vy)).sum

/-- Physics worker mutable state: the node and edge snapshots. -/
structure PhysState where
  nodes : List PNode
  edges : List PEdge

/-- Messages accepted by the physics worker. -/
inductive PhysMsg where
  | INIT_DATA (nodes : List PNode) (edges : List PEdge)
  | UPDATE_DATA (nodes : List PNode) (edges : List PEdge)
  | STEP (layoutMode : String) (clusterKeys : Option (List String))

/-- The TICK reply `{nodes, totalEnergy}`. -/
structure TickMsg where
  nodes : List PNode
  energy : ℝ

/-- The physics worker `onmessage` handler: INIT/UPDATE replace the snapshot;
STEP with an empty node array returns early (no state change, no message);
otherwise one integration pass runs and a TICK is posted. -/
noncomputable def physicsOnMessage (st : PhysState) (msg : PhysMsg) :
    PhysState × Option TickMsg :=
  match msg with
  | .INIT_DATA ns es => (⟨ns, es⟩, none)
  | .UPDATE_DATA ns es => (⟨ns, es⟩, none)
  | .STEP mode ck =>
    if st.nodes.length = 0 then (st, none)
    else
      let ns' := stepNodes mode ck st.nodes st.edges
      (⟨ns', st.edges⟩, some ⟨ns', totalEnergy ns'⟩)

/-! ## JS-number view of the physics step (for the NaN claim)

JavaScript numbers are IEEE doubles: `0/0` is `NaN`, `x/0` for `x ≠ 0` is
`±Infinity`, and `NaN` propagates through arithmetic while every comparison
with `NaN` is false.  `JsNum` models exactly this structure — finite values
carry exact reals (rounding is abstracted away, which is sound here because
producing and propagating `NaN` does not depend on rounding; negative zero is
identified with zero).  The force-directed step is re-expressed over `JsNum`
with the same structure as the real-valued model above. -/

/-- A JS number: finite, NaN, +Infinity or -Infinity. -/
inductive JsNum where
  | fin (x : ℝ)
  | nan
  | inf
  | ninf

instance : Inhabited JsNum := ⟨.nan⟩

/-- IEEE addition (rounding abstracted). -/
noncomputable def JsNum.add : JsNum → JsNum → JsNum
  | nan, _ => nan
  | _, nan => nan
  | fin x, fin y => fin (x + y)
  | fin _, inf => inf
  | fin _, ninf => ninf
  | inf, fin _ => inf
  | ninf, fin _ => ninf
  | inf, inf => inf
  | ninf, ninf => ninf
  | inf, ninf => nan
  | ninf, inf => nan

/-- IEEE subtraction. -/
noncomputable def JsNum.sub : JsNum → JsNum → JsNum
  | nan, _ => nan
  | _, nan => nan
  | fin x, fin y => fin (x - y)
  | fin _, inf => ninf
  | fin _, ninf => inf
  | inf, fin _ => inf
  | ninf, fin _ => ninf
  | inf, inf => nan
  | ninf, ninf => nan
  | inf, ninf => inf
  | ninf, inf => ninf

/-- IEEE multiplication. -/
noncomputable def JsNum.mul : JsNum → JsNum → JsNum
  | nan, _ => nan
  | _, nan => nan
  | fin x, fin y => fin (x * y)
  | fin x, inf => if x = 0 then nan else if 0 < x then inf else ninf
  | fin x, ninf => if x = 0 then nan else if 0 < x then ninf else inf
  | inf, fin y => if y = 0 then nan else if 0 < y then inf else ninf
  | ninf, fin y => if y = 0 then nan else if 0 < y then ninf else inf
  | inf, inf => inf
  | inf, ninf => ninf
  | ninf, inf => ninf
  | ninf, ninf => inf

/-- IEEE division: `0/0 = NaN`, `x/0 = ±Infinity` for `x ≠ 0`. -/
noncomputable def JsNum.div : JsNum → JsNum → JsNum
  | nan, _ => nan
  | _, nan => nan
  | fin x, fin y =>
    if y = 0 then (if x = 0 then nan else if 0 < x then inf else ninf)
    else fin (x / y)
  | fin _, inf => fin 0
  | fin _, ninf => fin 0
  | inf, fin y => if 0 ≤ y then inf else ninf
  | ninf, fin y => if 0 ≤ y then ninf else inf
  | inf, inf => nan
  | inf, ninf => nan
  | ninf, inf => nan
  | ninf, ninf => nan

/-- `Math.sqrt`: NaN on negative input and on NaN. -/
noncomputable def JsNum.sqrtJ : JsNum → JsNum
  | fin x => if x < 0 then nan else fin (Real.sqrt x)
  | nan => nan
  | inf => inf
  | ninf => nan

/-- JS `<`: false whenever either side is NaN. -/
noncomputable def JsNum.jlt : JsNum → JsNum → Bool
  | nan, _ => false
  | _, nan => false
  | fin x, fin y => decide (x < y)
  | ninf, fin _ => true
  | ninf, inf => true
  | ninf, ninf => false
  | fin _, inf => true
  | inf, _ => false
  | fin _, ninf => false

/-- JS `>`. -/
noncomputable def JsNum.jgt (a b : JsNum) : Bool := JsNum.jlt b a

/-- Whether a JS number is an ordinary finite value. -/
def JsNum.isFin : JsNum → Bool
  | fin _ => true
  | _ => false

/-- A node with JS-number coordinates. -/
structure JsNode where
  id : String
  x : JsNum
  y : JsNum
  vx : JsNum
  vy : JsNum

instance : Inhabited JsNode := ⟨⟨"", .nan, .nan, .nan, .nan⟩⟩

/-- The repulsion pair update over JS numbers (epsilon 0.1 added to the
distance, so the division is by at least 0.1). -/
noncomputable def jsApplyPair (ns : List JsNode) (i j : ℕ) : List JsNode :=
  match ns.get? i, ns.get? j with
  | some a, some b =>
    let dx := a.x.sub b.x
    let dy := a.y.sub b.y
    let distSq := (dx.mul dx).add (dy.mul dy)
    let dist := (JsNum.sqrtJ distSq).add (.fin 0.1)
    let force := (JsNum.fin 4000).div (dist.mul dist)
    let fx := (dx.div dist).mul force
    let fy := (dy.div dist).mul force
    let ns1 := ns.set i { a with vx := a.vx.add fx, vy := a.vy.add fy }
    match ns1.get? j with
    | some b1 => ns1.set j { b1 with vx := b1.vx.sub fx, vy := b1.vy.sub fy }
    | none => ns1
  | _, _ => ns

/-- The repulsion double loop over JS numbers. -/
noncomputable def jsRepulsion (ns : List JsNode) : List JsNode :=
  (List.range ns.length).foldl (fun acc i =>
    (List.range' (i + 1) (ns.length - (i + 1))).foldl
      (fun acc2 j => jsApplyPair acc2 i j) acc) ns

/-- `nodeMap.get` over JS nodes. -/
def jsLastIdxOf (ns : List JsNode) (nid : String) : Option ℕ :=
  ((ns.enum.filter (fun p => p.2.id == nid)).getLast?).map (fun p => p.1)

/-- The spring attraction update over JS numbers: the unguarded `dx / dist`
yields `0/0 = NaN` when the endpoints coincide. -/
noncomputable def jsApplyEdge (ns : List JsNode) (e : PEdge) : List JsNode :=
  match jsLastIdxOf ns e.source, jsLastIdxOf ns e.target with
  | some si, some ti =>
    let s := ns.getD si default
    let t := ns.getD ti default
    let dx := s.x.sub t.x
    let dy := s.y.sub t.y
    let dist := JsNum.sqrtJ ((dx.mul dx).add (dy.mul dy))
    let force := (dist.sub (.fin 120)).mul (.fin 0.08)
    let fx := (dx.div dist).mul force
    let fy := (dy.div dist).mul force
    let ns1 := ns.set si { s with vx := s.vx.sub fx, vy := s.vy.sub fy }
    let t1 := ns1.getD ti default
    ns1.set ti { t1 with vx := t1.vx.add fx, vy := t1.vy.add fy }
  | _, _ => ns

/-- The attraction loop over JS numbers. -/
noncomputable def jsAttraction (ns : List JsNode) (es : List PEdge) : List JsNode :=
  es.foldl jsApplyEdge ns

/-- Centering, damping, speed clamp and integration over JS numbers.  Note
both clamp comparisons are false on a NaN magnitude, so NaN velocities pass
through unchanged and are added to the positions. -/
noncomputable def jsIntegrateNode (n : JsNode) : JsNode :=
  let vx1 := n.vx.sub (n.x.mul (.fin 0.005))
  let vy1 := n.vy.sub (n.y.mul (.fin 0.005))
  let vx2 := vx1.mul (.fin 0.85)
  let vy2 := vy1.mul (.fin 0.85)
  let vMag := JsNum.sqrtJ ((vx2.mul vx2).add (vy2.mul vy2))
  let vx3 := if vMag.jgt (.fin 50) then (vx2.div vMag).mul (.fin 50) else vx2
  let vy3 := if vMag.jgt (.fin 50) then (vy2.div vMag).mul (.fin 50) else vy2
  let vx4 := if vMag.jlt (.fin 0.1) then .fin 0 else vx3
  let vy4 := if vMag.jlt (.fin 0.1) then .fin 0 else vy3
  { n with vx := vx4, vy := vy4, x := n.x.add vx4, y := n.y.add vy4 }

/-- A full force-directed STEP over JS numbers. -/
noncomputable def jsStep (ns : List JsNode) (es : List PEdge) : List JsNode :=
  (jsAttraction (jsRepulsion ns) es).map jsIntegrateNode

/-! ## Lemmas about the map/set primitives -/

theorem lookup_mapSet_self {α : Type} (l : List (String × α)) (k : String) (v : α) :
    (mapSet l k v).lookup k = some v := by
  induction l with
  | nil => simp [mapSet, List.lookup]
  | cons h t ih =>
    obtain ⟨k', v'⟩ := h
    by_cases hk : k' = k
    · simp [mapSet, hk, List.lookup]
    · simp only [mapSet, if_neg hk, List.lookup]
      have : (k == k') = false := by
        simp [beq_iff_eq]
        exact fun h => hk h.symm
      simp [this, ih]

theorem lookup_mapSet_ne {α : Type} (l : List (String × α)) (k k' : String) (v : α)
    (h : k' ≠ k) : (mapSet l k v).lookup k' = l.lookup k' := by
  have hbeq : (k' == k) = false := by simp [beq_iff_eq, h]
  induction l with
  | nil => simp [mapSet, List.lookup, hbeq]
  | cons hd t ih =>
    obtain ⟨a, b⟩ := hd
    by_cases hk : a = k
    · subst hk
      simp [mapSet, List.lookup, hbeq]
    · simp only [mapSet, if_neg hk, List.lookup]
      by_cases he : k' = a
      · simp [he]
      · have h1 : (k' == a) = false := by simp [beq_iff_eq, he]
        simp [h1, ih]

theorem mem_setAdd {l : List String} {s t : String} :
    s ∈ setAdd l t ↔ s ∈ l ∨ s = t := by
  by_cases h : t ∈ l
  · simp only [setAdd, if_pos h]
    constructor
    · exact fun hs => Or.inl hs
    · rintro (hs | rfl)
      · exact hs
      · exact h
  · simp [setAdd, if_neg h]

theorem mem_setAdd_self (l : List String) (s : String) : s ∈ setAdd l s := by
  simp [mem_setAdd]

theorem mem_setAdd_of_mem {l : List String} {s : String} (t : String) (h : s ∈ l) :
    s ∈ setAdd l t := by
  simp [mem_setAdd, h]

/-! ## Lemmas about GestureStateMachine.update -/

theorem gsmStepGesture_cooldown_congr (cfg : GSMConfig) (m1 m2 : GSM) (g : String)
    (isSeen : Bool) (now : ℤ) (cur : GRecord)
    (h : m1.cooldowns.lookup g = m2.cooldowns.lookup g) :
    gsmStepGesture cfg m1 g isSeen now cur = gsmStepGesture cfg m2 g isSeen now cur := by
  unfold gsmStepGesture GSM.isInCooldown
  rw [h]

theorem gsmFoldStep_enabled (cfg : GSMConfig) (det : List String) (now : ℤ)
    (acc : GSM × List String) (g : String) :
    gsmFoldStep cfg det now acc (g, true) =
      (⟨mapSet acc.1.states g (gsmStepGesture cfg acc.1 g (det.contains g) now
          ((acc.1.states.lookup g).getD ⟨.IDLE, 0, 0⟩)).1,
        match (gsmStepGesture cfg acc.1 g (det.contains g) now
          ((acc.1.states.lookup g).getD ⟨.IDLE, 0, 0⟩)).2.1 with
        | some t => mapSet acc.1.cooldowns g t
        | none => acc.1.cooldowns⟩,
       if (gsmStepGesture cfg acc.1 g (det.contains g) now
          ((acc.1.states.lookup g).getD ⟨.IDLE, 0, 0⟩)).2.2 then setAdd acc.2 g
       else acc.2) := rfl

theorem gsmFoldStep_preserve (cfg : GSMConfig) (det : List String) (now : ℤ)
    (acc : GSM × List String) (v : String × Bool) (g : String) (hv : v.1 ≠ g) :
    ((gsmFoldStep cfg det now acc v).1.states.lookup g = acc.1.states.lookup g) ∧
    ((gsmFoldStep cfg det now acc v).1.cooldowns.lookup g = acc.1.cooldowns.lookup g) ∧
    (g ∈ (gsmFoldStep cfg det now acc v).2 ↔ g ∈ acc.2) := by
  obtain ⟨a, e⟩ := v
  cases e with
  | false => exact ⟨rfl, rfl, Iff.rfl⟩
  | true =>
    rw [gsmFoldStep_enabled]
    refine ⟨lookup_mapSet_ne _ _ _ _ (Ne.symm hv), ?_, ?_⟩
    · cases (gsmStepGesture cfg acc.1 a (det.contains a) now
        ((acc.1.states.lookup a).getD ⟨.IDLE, 0, 0⟩)).2.1 with
      | none => rfl
      | some t => exact lookup_mapSet_ne _ _ _ _ (Ne.symm hv)
    · by_cases hb : (gsmStepGesture cfg acc.1 a (det.contains a) now
        ((acc.1.states.lookup a).getD ⟨.IDLE, 0, 0⟩)).2.2 = true
      · rw [if_pos hb, mem_setAdd]
        exact or_iff_left (Ne.symm hv)
      · rw [if_neg hb]

theorem gsmFold_preserve (cfg : GSMConfig) (det : List String) (now : ℤ) (g : String)
    (vs : List (String × Bool)) (acc : GSM × List String) (h : ∀ v ∈ vs, v.1 ≠ g) :
    ((vs.foldl (gsmFoldStep cfg det now) acc).1.states.lookup g
        = acc.1.states.lookup g) ∧
    ((vs.foldl (gsmFoldStep cfg det now) acc).1.cooldowns.lookup g
        = acc.1.cooldowns.lookup g) ∧
    (g ∈ (vs.foldl (gsmFoldStep cfg det now) acc).2 ↔ g ∈ acc.2) := by
  induction vs generalizing acc with
  | nil => simp
  | cons v vs ih =>
    have hv : v.1 ≠ g := h v (List.mem_cons_self v vs)
    have hrest : ∀ w ∈ vs, w.1 ≠ g := fun w hw => h w (List.mem_cons_of_mem v hw)
    rw [List.foldl_cons]
    have hstep := gsmFoldStep_preserve cfg det now acc v g hv
    obtain ⟨h1, h2, h3⟩ := ih (gsmFoldStep cfg det now acc v) hrest
    exact ⟨h1.trans hstep.1, h2.trans hstep.2.1, h3.trans hstep.2.2⟩

/-- Characterization of one `GestureStateMachine.update` for a gesture `g` that
occurs enabled in the vocabulary, with no other vocabulary entry sharing its
name: the machine's record for `g` and its membership in the returned active set
are those produced by the switch `gsmStepGesture`. -/
theorem gsm_update_char (cfg : GSMConfig) (m : GSM) (det : List String) (now : ℤ)
    (g : String) (pre post : List (String × Bool))
    (hvoc : cfg.vocabulary = pre ++ (g, true) :: post)
    (hpre : ∀ v ∈ pre, v.1 ≠ g) (hpost : ∀ v ∈ post, v.1 ≠ g) :
    ((GSM.update cfg m det now).1.states.lookup g
        = some (gsmStepGesture cfg m g (det.contains g) now
            ((m.states.lookup g).getD ⟨.IDLE, 0, 0⟩)).1) ∧
    (g ∈ (GSM.update cfg m det now).2
        ↔ (gsmStepGesture cfg m g (det.contains g) now
            ((m.states.lookup g).getD ⟨.IDLE, 0, 0⟩)).2.2 = true) := by
  unfold GSM.update
  rw [hvoc, List.foldl_append, List.foldl_cons]
  obtain ⟨ha1, ha2, ha3⟩ := gsmFold_preserve cfg det now g pre (m, []) hpre
  set acc1 := pre.foldl (gsmFoldStep cfg det now) (m, []) with hacc1
  have hng : g ∉ acc1.2 := by simp [ha3]
  have hsame : gsmStepGesture cfg acc1.1 g (det.contains g) now
      ((acc1.1.states.lookup g).getD ⟨.IDLE, 0, 0⟩) =
      gsmStepGesture cfg m g (det.contains g) now
      ((m.states.lookup g).getD ⟨.IDLE, 0, 0⟩) := by
    rw [ha1]
    exact gsmStepGesture_cooldown_congr cfg acc1.1 m g _ now _ ha2
  rw [gsmFoldStep_enabled, hsame]
  obtain ⟨hb1, _, hb3⟩ := gsmFold_preserve cfg det now g post _ hpost
  constructor
  · rw [hb1]
    exact lookup_mapSet_self _ _ _
  · rw [hb3]
    by_cases hr : (gsmStepGesture cfg m g (det.contains g) now
        ((m.states.lookup g).getD ⟨.IDLE, 0, 0⟩)).2.2 = true
    · rw [if_pos hr]
      exact iff_of_true (mem_setAdd_self _ _) hr
    · rw [if_neg hr]
      exact iff_of_false hng hr

/-! ## Lemmas about the worker StateMachine.update -/

theorem mem_mapSet_ne {α : Type} {l : List (String × α)} {g : String} {d : α}
    (k : String) (v : α) (h : (g, d) ∈ l) (hk : k ≠ g) : (g, d) ∈ mapSet l k v := by
  induction l with
  | nil => cases h
  | cons hd t ih =>
    obtain ⟨a, b⟩ := hd
    rcases List.mem_cons.mp h with heq | ht
    · cases heq
      have hak : ¬(g = k) := fun he => hk he.symm
      simp only [mapSet, if_neg hak]
      exact List.mem_cons_self _ _
    · by_cases ha : a = k
      · simp only [mapSet, if_pos ha]
        exact List.mem_cons_of_mem _ ht
      · simp only [mapSet, if_neg ha]
        exact List.mem_cons_of_mem _ (ih ht)

theorem wDetected_act_mono (cfg : WConfig) (now : ℤ) (det : List String)
    (acc : List (String × WState) × List String) (g : String) (h : g ∈ acc.2) :
    g ∈ (det.foldl (wDetectedStep cfg now) acc).2 := by
  induction det generalizing acc with
  | nil => exact h
  | cons x det ih =>
    rw [List.foldl_cons]
    refine ih _ ?_
    unfold wDetectedStep
    by_cases hc : now - (match acc.1.lookup x with
        | none => (⟨now, now⟩ : WState)
        | some d => ⟨d.startTime, now⟩).startTime > cfg.holdDuration
    · simp only [if_pos hc]
      exact mem_setAdd_of_mem _ h
    · simp only [if_neg hc]
      exact h

theorem wCleanup_act_mono (cfg : WConfig) (det : List String) (now : ℤ)
    (l : List (String × WState)) (acc : List (String × WState) × List String)
    (g : String) (h : g ∈ acc.2) :
    g ∈ (l.foldl (wCleanupStep cfg det now) acc).2 := by
  induction l generalizing acc with
  | nil => exact h
  | cons p l ih =>
    rw [List.foldl_cons]
    refine ih _ ?_
    unfold wCleanupStep
    split
    · exact h
    · split
      · exact h
      · split
        · exact mem_setAdd_of_mem _ h
        · exact h

theorem wDetected_active (cfg : WConfig) (now : ℤ) (det : List String)
    (g : String) (d : WState) (hhold : now - d.startTime > cfg.holdDuration) :
    ∀ acc : List (String × WState) × List String, g ∈ det →
    acc.1.lookup g = some d → g ∈ (det.foldl (wDetectedStep cfg now) acc).2 := by
  induction det with
  | nil => intro acc hmem _; cases hmem
  | cons x det ih =>
    intro acc hmem hl
    rw [List.foldl_cons]
    by_cases hx : x = g
    · subst hx
      refine wDetected_act_mono cfg now det _ x ?_
      unfold wDetectedStep
      rw [hl]
      simp only [if_pos hhold]
      exact mem_setAdd_self _ _
    · rcases List.mem_cons.mp hmem with heq | ht
      · exact absurd heq.symm hx
      · refine ih _ ht ?_
        unfold wDetectedStep
        exact (lookup_mapSet_ne _ _ _ _ (fun he => hx he.symm)).trans hl

theorem wCleanup_active (cfg : WConfig) (det : List String) (now : ℤ)
    (l : List (String × WState)) (g : String) (d : WState) (hdet : g ∉ det)
    (hgrace : ¬(now - d.lastSeen > cfg.gracePeriod))
    (hhold : now - d.startTime > cfg.holdDuration) :
    ∀ acc : List (String × WState) × List String, (g, d) ∈ l →
    g ∈ (l.foldl (wCleanupStep cfg det now) acc).2 := by
  induction l with
  | nil => intro acc hmem; cases hmem
  | cons p l ih =>
    intro acc hmem
    rw [List.foldl_cons]
    rcases List.mem_cons.mp hmem with heq | ht
    · subst heq
      refine wCleanup_act_mono cfg det now l _ g ?_
      unfold wCleanupStep
      simp only [if_neg hdet, if_neg hgrace, if_pos hhold]
      exact mem_setAdd_self _ _
    · exact ih _ ht

/-- The worker state machine reports a detected gesture as active on any update
where its tracked `startTime` is more than `holdDuration` in the past. -/
theorem workerSM_detected_active (cfg : WConfig) (sm : WorkerSM) (det : List String)
    (now : ℤ) (g : String) (d : WState) (hl : sm.states.lookup g = some d)
    (hmem : g ∈ det) (hhold : now - d.startTime > cfg.holdDuration) :
    g ∈ (WorkerSM.update cfg sm det now).2 := by
  unfold WorkerSM.update
  exact wCleanup_act_mono cfg det now _ _ g
    (wDetected_active cfg now det g d hhold (sm.states, []) hmem hl)

theorem lookup_mem {α : Type} {l : List (String × α)} {g : String} {d : α}
    (h : l.lookup g = some d) : (g, d) ∈ l := by
  induction l with
  | nil => cases h
  | cons hd t ih =>
    obtain ⟨a, b⟩ := hd
    by_cases ha : g = a
    · subst ha
      simp [List.lookup] at h
      simp [h]
    · have hbeq : (g == a) = false := by simp [beq_iff_eq, ha]
      simp only [List.lookup, hbeq] at h
      exact List.mem_cons_of_mem _ (ih h)

/-- The worker state machine keeps reporting a gesture that drops out, as long
as the dropout is within `gracePeriod` of the last sighting and the gesture has
been held longer than `holdDuration`. -/
theorem workerSM_grace_active (cfg : WConfig) (sm : WorkerSM) (det : List String)
    (now : ℤ) (g : String) (d : WState) (hl : sm.states.lookup g = some d)
    (hdet : g ∉ det) (hgrace : ¬(now - d.lastSeen > cfg.gracePeriod))
    (hhold : now - d.startTime > cfg.holdDuration) :
    g ∈ (WorkerSM.update cfg sm det now).2 := by
  unfold WorkerSM.update
  have hpair : (g, d) ∈ sm.states := lookup_mem hl
  have hpair1 : (g, d) ∈ (det.foldl (wDetectedStep cfg now) (sm.states, [])).1 := by
    have : ∀ (det' : List String) (acc : List (String × WState) × List String),
        (g, d) ∈ acc.1 → (∀ x ∈ det', x ≠ g) →
        (g, d) ∈ (det'.foldl (wDetectedStep cfg now) acc).1 := by
      intro det'
      induction det' with
      | nil => exact fun acc h _ => h
      | cons x det' ih =>
        intro acc h hx
        rw [List.foldl_cons]
        refine ih _ ?_ (fun y hy => hx y (List.mem_cons_of_mem x hy))
        unfold wDetectedStep
        split
        · exact mem_mapSet_ne _ _ h (hx x (List.mem_cons_self x det'))
        · exact mem_mapSet_ne _ _ h (hx x (List.mem_cons_self x det'))
    exact this det (sm.states, []) hpair (fun x hx he => hdet (he ▸ hx))
  exact wCleanup_active cfg det now _ g d hdet hgrace hhold _ hpair1

/-! ## Claim C1 and C4 -/

/-- C1, counterexample.  The claim says a gesture whose stabilizer reached
ACTIVE keeps being reported in the active set of every update during a dropout
shorter than exitDuration.  Concretely: NAV_PAN is detected at t=9000, 9100,
9150 (ACTIVE and reported at 9150), then detection drops at t=9200 and 9250 —
both within exitDuration = 300 ms of the dropout — yet `GestureStateMachine`
returns an empty active set for both of those updates, while its record for
NAV_PAN is still in the EXIT_PENDING window. -/
theorem exit_pending_reporting_counterexample :
    (GSM.run vocabPan ⟨[], []⟩
        [(9000, ["NAV_PAN"]), (9100, ["NAV_PAN"]), (9150, ["NAV_PAN"]),
         (9200, []), (9250, [])]).2
      = [[], [], ["NAV_PAN"], [], []] ∧
    ((GSM.run vocabPan ⟨[], []⟩
        [(9000, ["NAV_PAN"]), (9100, ["NAV_PAN"]), (9150, ["NAV_PAN"]),
         (9200, []), (9250, [])]).1.states.lookup "NAV_PAN").map GRecord.state
      = some .EXIT_PENDING := by
  decide

/-- C1 (amended): in GestureStateMachine.js, a dropout while ACTIVE moves the
gesture to EXIT_PENDING and it is NOT reported in the active set of any update
during the dropout window; if detection resumes while EXIT_PENDING the gesture
returns to ACTIVE and is reported again from that update on.  The worker's
StateMachine, by contrast, does keep reporting the gesture through a dropout,
but for `gracePeriod` (not `exitDuration`) milliseconds since it was last
seen. -/
theorem exit_pending_window_behavior
    (cfg : GSMConfig) (m : GSM) (det : List String) (now : ℤ) (g : String)
    (rec : GRecord) (pre post : List (String × Bool))
    (hvoc : cfg.vocabulary = pre ++ (g, true) :: post)
    (hpre : ∀ v ∈ pre, v.1 ≠ g) (hpost : ∀ v ∈ post, v.1 ≠ g)
    (hrec : m.states.lookup g = some rec) :
    (rec.state = .ACTIVE → g ∉ det →
      (GSM.update cfg m det now).1.states.lookup g
          = some ⟨.EXIT_PENDING, now, rec.lastSeenTime⟩ ∧
      g ∉ (GSM.update cfg m det now).2) ∧
    (rec.state = .EXIT_PENDING → g ∉ det → now - rec.startTime < cfg.exitDuration →
      (GSM.update cfg m det now).1.states.lookup g = some rec ∧
      g ∉ (GSM.update cfg m det now).2) ∧
    (rec.state = .EXIT_PENDING → g ∈ det →
      (GSM.update cfg m det now).1.states.lookup g
          = some ⟨.ACTIVE, rec.startTime, now⟩ ∧
      g ∈ (GSM.update cfg m det now).2) ∧
    (∀ (wcfg : WConfig) (wsm : WorkerSM) (wdet : List String) (d : WState),
      wsm.states.lookup g = some d → g ∉ wdet →
      ¬(now - d.lastSeen > wcfg.gracePeriod) → now - d.startTime > wcfg.holdDuration →
      g ∈ (WorkerSM.update wcfg wsm wdet now).2) := by
  obtain ⟨hchar1, hchar2⟩ := gsm_update_char cfg m det now g pre post hvoc hpre hpost
  refine ⟨?_, ?_, ?_, ?_⟩
  · intro hst hdet
    have hc : det.contains g = false := by simpa using hdet
    have hstep : gsmStepGesture cfg m g (det.contains g) now
        ((m.states.lookup g).getD ⟨.IDLE, 0, 0⟩)
        = (⟨.EXIT_PENDING, now, rec.lastSeenTime⟩, none, false) := by
      rw [hrec, hc]
      unfold gsmStepGesture
      simp [hst]
    refine ⟨by rw [hchar1, hstep], fun hmem => ?_⟩
    have := hchar2.mp hmem
    rw [hstep] at this
    exact Bool.false_ne_true this
  · intro hst hdet hwin
    have hc : det.contains g = false := by simpa using hdet
    have hstep : gsmStepGesture cfg m g (det.contains g) now
        ((m.states.lookup g).getD ⟨.IDLE, 0, 0⟩) = (rec, none, false) := by
      rw [hrec, hc]
      unfold gsmStepGesture
      simp [hst, not_le.mpr hwin]
    refine ⟨by rw [hchar1, hstep], fun hmem => ?_⟩
    have := hchar2.mp hmem
    rw [hstep] at this
    exact Bool.false_ne_true this
  · intro hst hdet
    have hc : det.contains g = true := by simpa using hdet
    have hstep : gsmStepGesture cfg m g (det.contains g) now
        ((m.states.lookup g).getD ⟨.IDLE, 0, 0⟩)
        = (⟨.ACTIVE, rec.startTime, now⟩, none, true) := by
      rw [hrec, hc]
      unfold gsmStepGesture
      simp [hst]
    refine ⟨by rw [hchar1, hstep], hchar2.mpr (by rw [hstep])⟩
  · intro wcfg wsm wdet d hl hdet hgrace hhold
    exact workerSM_grace_active wcfg wsm wdet now g d hl hdet hgrace hhold

/-- C1, witness for the amended theorem: a concrete machine with NAV_PAN
ACTIVE at time 9040 is updated at 9050 without detection; the gesture is not in
the returned active set. -/
theorem exit_pending_window_behavior_witness :
    "NAV_PAN" ∉ (GSM.update vocabPan
      ⟨[("NAV_PAN", ⟨.ACTIVE, 9000, 9040⟩)], []⟩ [] 9050).2 := by
  have h := exit_pending_window_behavior vocabPan
    ⟨[("NAV_PAN", ⟨.ACTIVE, 9000, 9040⟩)], []⟩ [] 9050 "NAV_PAN"
    ⟨.ACTIVE, 9000, 9040⟩ [] [] rfl (by simp) (by simp) rfl
  exact (h.1 rfl (by simp)).2

/-- C4, counterexample.  The claim says a gesture detected continuously for
more than holdDuration appears in the active set from that point on.
Concretely: NAV_PAN is detected at t=9000 and t=9150 with holdDuration=100, so
at the second update it has been continuously detected for 150 ms > 100 ms and
the machine promotes it to ACTIVE — but that update still returns an empty
active set (the gesture is only reported from the next detected update on). -/
theorem hold_activation_counterexample :
    (GSM.run vocabPan ⟨[], []⟩ [(9000, ["NAV_PAN"]), (9150, ["NAV_PAN"])]).2
      = [[], []] ∧
    ((GSM.run vocabPan ⟨[], []⟩
        [(9000, ["NAV_PAN"]), (9150, ["NAV_PAN"])]).1.states.lookup
          "NAV_PAN").map GRecord.state = some .ACTIVE := by
  decide

/-- C4 (amended): in GestureStateMachine.js a gesture detected while POTENTIAL
for strictly less than holdDuration is never reported; at the update crossing
holdDuration it is promoted to ACTIVE but still NOT reported; it is reported
from the next detected update on; a single missed frame while POTENTIAL reverts
it to IDLE (strict variant).  The worker's StateMachine reports the gesture
already at the update where its age exceeds holdDuration. -/
theorem hold_activation_behavior
    (cfg : GSMConfig) (m : GSM) (det : List String) (now : ℤ) (g : String)
    (rec : GRecord) (pre post : List (String × Bool))
    (hvoc : cfg.vocabulary = pre ++ (g, true) :: post)
    (hpre : ∀ v ∈ pre, v.1 ≠ g) (hpost : ∀ v ∈ post, v.1 ≠ g) :
    (m.states.lookup g = none → g ∈ det → GSM.isInCooldown cfg m g now = false →
      (GSM.update cfg m det now).1.states.lookup g = some ⟨.POTENTIAL, now, now⟩ ∧
      g ∉ (GSM.update cfg m det now).2) ∧
    (m.states.lookup g = some rec → rec.state = .POTENTIAL → g ∈ det →
      now - rec.startTime < cfg.holdDuration →
      (GSM.update cfg m det now).1.states.lookup g
          = some ⟨.POTENTIAL, rec.startTime, now⟩ ∧
      g ∉ (GSM.update cfg m det now).2) ∧
    (m.states.lookup g = some rec → rec.state = .POTENTIAL → g ∈ det →
      now - rec.startTime ≥ cfg.holdDuration →
      (GSM.update cfg m det now).1.states.lookup g = some ⟨.ACTIVE, now, now⟩ ∧
      g ∉ (GSM.update cfg m det now).2) ∧
    (m.states.lookup g = some rec → rec.state = .ACTIVE → g ∈ det →
      g ∈ (GSM.update cfg m det now).2) ∧
    (m.states.lookup g = some rec → rec.state = .POTENTIAL → g ∉ det →
      (GSM.update cfg m det now).1.states.lookup g
          = some ⟨.IDLE, rec.startTime, rec.lastSeenTime⟩) ∧
    (∀ (wcfg : WConfig) (wsm : WorkerSM) (wdet : List String) (d : WState),
      wsm.states.lookup g = some d → g ∈ wdet →
      now - d.startTime > wcfg.holdDuration →
      g ∈ (WorkerSM.update wcfg wsm wdet now).2) := by
  obtain ⟨hchar1, hchar2⟩ := gsm_update_char cfg m det now g pre post hvoc hpre hpost
  refine ⟨?_, ?_, ?_, ?_, ?_, ?_⟩
  · intro hrec hdet hcool
    have hc : det.contains g = true := by simpa using hdet
    have hstep : gsmStepGesture cfg m g (det.contains g) now
        ((m.states.lookup g).getD ⟨.IDLE, 0, 0⟩)
        = (⟨.POTENTIAL, now, now⟩, none, false) := by
      rw [hrec, hc]
      unfold gsmStepGesture
      simp [hcool]
    refine ⟨by rw [hchar1, hstep], fun hmem => ?_⟩
    have := hchar2.mp hmem
    rw [hstep] at this
    exact Bool.false_ne_true this
  · intro hrec hst hdet hlt
    have hc : det.contains g = true := by simpa using hdet
    have hstep : gsmStepGesture cfg m g (det.contains g) now
        ((m.states.lookup g).getD ⟨.IDLE, 0, 0⟩)
        = (⟨.POTENTIAL, rec.startTime, now⟩, none, false) := by
      rw [hrec, hc]
      unfold gsmStepGesture
      simp [hst, not_le.mpr hlt]
    refine ⟨by rw [hchar1, hstep], fun hmem => ?_⟩
    have := hchar2.mp hmem
    rw [hstep] at this
    exact Bool.false_ne_true this
  · intro hrec hst hdet hge
    have hc : det.contains g = true := by simpa using hdet
    have hstep : gsmStepGesture cfg m g (det.contains g) now
        ((m.states.lookup g).getD ⟨.IDLE, 0, 0⟩)
        = (⟨.ACTIVE, now, now⟩, none, false) := by
      rw [hrec, hc]
      unfold gsmStepGesture
      simp [hst, hge]
    refine ⟨by rw [hchar1, hstep], fun hmem => ?_⟩
    have := hchar2.mp hmem
    rw [hstep] at this
    exact Bool.false_ne_true this
  · intro hrec hst hdet
    have hc : det.contains g = true := by simpa using hdet
    refine hchar2.mpr ?_
    rw [hrec, hc]
    unfold gsmStepGesture
    simp [hst]
  · intro hrec hst hdet
    have hc : det.contains g = false := by simpa using hdet
    have hstep : gsmStepGesture cfg m g (det.contains g) now
        ((m.states.lookup g).getD ⟨.IDLE, 0, 0⟩)
        = (⟨.IDLE, rec.startTime, rec.lastSeenTime⟩, none, false) := by
      rw [hrec, hc]
      unfold gsmStepGesture
      simp [hst]
    rw [hchar1, hstep]
  · intro wcfg wsm wdet d hl hdet hhold
    exact workerSM_detected_active wcfg wsm wdet now g d hl hdet hhold

/-- C4, witness for the amended theorem: the concrete crossing update (NAV_PAN
POTENTIAL since 9000, detected again at 9150 with holdDuration 100) promotes to
ACTIVE but reports nothing. -/
theorem hold_activation_behavior_witness :
    (GSM.update vocabPan ⟨[("NAV_PAN", ⟨.POTENTIAL, 9000, 9000⟩)], []⟩
        ["NAV_PAN"] 9150).1.states.lookup "NAV_PAN" = some ⟨.ACTIVE, 9150, 9150⟩ ∧
    "NAV_PAN" ∉ (GSM.update vocabPan ⟨[("NAV_PAN", ⟨.POTENTIAL, 9000, 9000⟩)], []⟩
        ["NAV_PAN"] 9150).2 := by
  have h := hold_activation_behavior vocabPan
    ⟨[("NAV_PAN", ⟨.POTENTIAL, 9000, 9000⟩)], []⟩ ["NAV_PAN"] 9150 "NAV_PAN"
    ⟨.POTENTIAL, 9000, 9000⟩ [] [] rfl (by simp) (by simp)
  exact h.2.2.1 rfl rfl (by simp) (by decide)

/-! ## Claim C6: IntentBus exception isolation -/

theorem invokeAll_ok (hs : List Handler) (ev : IntentEvent) :
    invokeAll hs ev = .ok (hs.map (fun h => (h.hid, ev))) := by
  induction hs with
  | nil => rfl
  | cons h t ih =>
    cases hr : h.run ev with
    | ok u => simp [invokeAll, hr, ih, Except.map]
    | error e => simp [invokeAll, hr, ih, Except.map]

/-- C6 (confirmed): `emit` never propagates a subscriber exception — it always
returns normally — and the performed invocations are exactly the
specific-intent subscribers followed by the wildcard subscribers, each called
with the event, regardless of which handlers throw; in particular with zero
subscribers it returns normally with an empty invocation trace. -/
theorem emit_isolates_handler_exceptions (bus : IntentBus) (ev : IntentEvent)
    (hp : bus.paused = false) :
    bus.emit ev = .ok ({ bus with lastEvent := some ev },
      (bus.listeners ev.intent).map (fun h => (h.hid, ev))
        ++ (bus.listeners "*").map (fun h => (h.hid, ev))) := by
  unfold IntentBus.emit
  rw [hp]
  simp [invokeAll_ok, Bind.bind, Except.bind, Pure.pure, Except.pure]

/-- C6, witness: on the concrete bus, the throwing subscriber does not prevent
the second subscriber from being invoked, and emit returns normally. -/
theorem emit_isolates_handler_exceptions_witness :
    busC6.emit evC6 = .ok ({ busC6 with lastEvent := some evC6 },
      [(0, evC6), (1, evC6)]) := by
  have h := emit_isolates_handler_exceptions busC6 evC6 rfl
  simpa [busC6, evC6] using h

/-! ## Claim C9: double-exponential smoother recurrences -/

/-- C9 (confirmed): the first update of a freshly constructed smoother returns
the raw sample unchanged, with level S set to the raw value and trend B zero;
every subsequent update returns S' = α·raw + (1-α)(S+B) componentwise and sets
the trend to B' = β(S'-S) + (1-β)B. -/
theorem smoother_holt_recurrences (a b : ℝ) (pos : Vec2) :
    ((Smoother.new a b).update pos
        = ({ alpha := a, beta := b, s := some pos, b := ⟨0, 0⟩ }, pos)) ∧
    (∀ (sm : Smoother) (prevS : Vec2), sm.s = some prevS →
      ((sm.update pos).2.x = sm.alpha * pos.x + (1 - sm.alpha) * (prevS.x + sm.b.x)) ∧
      ((sm.update pos).2.y = sm.alpha * pos.y + (1 - sm.alpha) * (prevS.y + sm.b.y)) ∧
      ((sm.update pos).1.s = some (sm.update pos).2) ∧
      ((sm.update pos).1.b.x
          = sm.beta * ((sm.update pos).2.x - prevS.x) + (1 - sm.beta) * sm.b.x) ∧
      ((sm.update pos).1.b.y
          = sm.beta * ((sm.update pos).2.y - prevS.y) + (1 - sm.beta) * sm.b.y) ∧
      ((sm.update pos).1.alpha = sm.alpha ∧ (sm.update pos).1.beta = sm.beta)) := by
  constructor
  · rfl
  · intro sm prevS hs
    unfold Smoother.update
    rw [hs]
    exact ⟨rfl, rfl, rfl, rfl, rfl, rfl, rfl⟩

/-- C9, witness: one concrete non-first update (level (0,0), trend (0,0),
α = 0.3, β = 0.1, raw sample (1,0)). -/
theorem smoother_holt_recurrences_witness :
    ((⟨0.3, 0.1, some ⟨0, 0⟩, ⟨0, 0⟩⟩ : Smoother).update ⟨1, 0⟩).2.x
        = 0.3 * 1 + (1 - 0.3) * (0 + 0) ∧
    ((⟨0.3, 0.1, some ⟨0, 0⟩, ⟨0, 0⟩⟩ : Smoother).update ⟨1, 0⟩).1.b.x
        = 0.1 * (((⟨0.3, 0.1, some ⟨0, 0⟩, ⟨0, 0⟩⟩ : Smoother).update ⟨1, 0⟩).2.x - 0)
            + (1 - 0.1) * 0 := by
  have h := (smoother_holt_recurrences 0.3 0.1 ⟨1, 0⟩).2
    ⟨0.3, 0.1, some ⟨0, 0⟩, ⟨0, 0⟩⟩ ⟨0, 0⟩ rfl
  exact ⟨h.1, h.2.2.2.1⟩

/-! ## Claim C2: isOpenPalm -/

theorem sqrt_eval {a b : ℝ} (hb : 0 ≤ b) (h : b ^ 2 = a) : Real.sqrt a = b := by
  rw [← h, Real.sqrt_sq hb]

/-- C2, counterexample: on `handC2` exactly three of the four fingers
(index, middle, ring) are extended according to GestureVocabulary's
`isExtended`, yet GestureVocabulary's `isOpenPalm` returns false — it requires
all four fingers (`.every`), not "at least 3". -/
theorem isOpenPalm_counterexample :
    vIsExtended handC2 8 6 5 = true ∧ vIsExtended handC2 12 10 9 = true ∧
    vIsExtended handC2 16 14 13 = true ∧ vIsExtended handC2 20 18 17 = false ∧
    vIsOpenPalm handC2 = false := by
  have s25 : Real.sqrt 25 = 5 := sqrt_eval (by norm_num) (by norm_num)
  have s100 : Real.sqrt 100 = 10 := sqrt_eval (by norm_num) (by norm_num)
  have s400 : Real.sqrt 400 = 20 := sqrt_eval (by norm_num) (by norm_num)
  have h1 : vIsExtended handC2 8 6 5 = true := by
    rw [vIsExtended, decide_eq_true_eq]
    norm_num [handC2, vDistance, s25, s100]
  have h2 : vIsExtended handC2 12 10 9 = true := by
    rw [vIsExtended, decide_eq_true_eq]
    norm_num [handC2, vDistance, s25, s100]
  have h3 : vIsExtended handC2 16 14 13 = true := by
    rw [vIsExtended, decide_eq_true_eq]
    norm_num [handC2, vDistance, s25, s100]
  have h4 : vIsExtended handC2 20 18 17 = false := by
    rw [vIsExtended, decide_eq_false_iff_not]
    norm_num [handC2, vDistance, s100, s400]
  refine ⟨h1, h2, h3, h4, ?_⟩
  simp [vIsOpenPalm, h4]

/-- C2 (amended): the worker's `isOpenPalm` returns true iff at least 3 of the
four fingers index/middle/ring/pinky are extended according to the worker's
`isExtended` (threshold 0.7, 2D distance); GestureVocabulary's `isOpenPalm`
instead returns true iff ALL four are extended according to its `isExtended`
(threshold 0.8, 3D distance). -/
theorem isOpenPalm_characterization (l : Hand) :
    (wIsOpenPalm l = true ↔
      ((wIsExtended l 8 6 5 = true ∧ wIsExtended l 12 10 9 = true ∧
          wIsExtended l 16 14 13 = true) ∨
       (wIsExtended l 8 6 5 = true ∧ wIsExtended l 12 10 9 = true ∧
          wIsExtended l 20 18 17 = true) ∨
       (wIsExtended l 8 6 5 = true ∧ wIsExtended l 16 14 13 = true ∧
          wIsExtended l 20 18 17 = true) ∨
       (wIsExtended l 12 10 9 = true ∧ wIsExtended l 16 14 13 = true ∧
          wIsExtended l 20 18 17 = true))) ∧
    (vIsOpenPalm l = true ↔
      (vIsExtended l 8 6 5 = true ∧ vIsExtended l 12 10 9 = true ∧
       vIsExtended l 16 14 13 = true ∧ vIsExtended l 20 18 17 = true)) := by
  constructor
  · simp only [wIsOpenPalm, decide_eq_true_eq, List.filter_cons, List.filter_nil]
    generalize wIsExtended l 8 6 5 = a
    generalize wIsExtended l 12 10 9 = b
    generalize wIsExtended l 16 14 13 = c
    generalize wIsExtended l 20 18 17 = d
    cases a <;> cases b <;> cases c <;> cases d <;> simp
  · simp [vIsOpenPalm, List.all_cons, List.all_nil, and_assoc]

/-! ## Claim C5: STEP centering/damping/clamp/integration -/

theorem length_foldl_inv {β : Type} (f : List PNode → β → List PNode)
    (l : List β) (ns : List PNode)
    (hf : ∀ acc b, (f acc b).length = acc.length) :
    (l.foldl f ns).length = ns.length := by
  induction l generalizing ns with
  | nil => rfl
  | cons b t ih => rw [List.foldl_cons, ih (f ns b), hf]

theorem length_applyPair (ns : List PNode) (i j : ℕ) :
    (applyPair ns i j).length = ns.length := by
  unfold applyPair
  split
  · dsimp only
    split
    · simp [List.length_set]
    · simp [List.length_set]
  · rfl

theorem length_repulsion (ns : List PNode) : (repulsion ns).length = ns.length := by
  unfold repulsion
  apply length_foldl_inv
  intro acc i
  apply length_foldl_inv
  intro acc2 j
  exact length_applyPair acc2 i j

theorem length_applyEdge (ns : List PNode) (e : PEdge) :
    (applyEdge ns e).length = ns.length := by
  unfold applyEdge
  split
  · simp [List.length_set]
  · rfl

theorem length_attraction (ns : List PNode) (es : List PEdge) :
    (attraction ns es).length = ns.length :=
  length_foldl_inv applyEdge es ns length_applyEdge

theorem length_forcesPhase (mode : String) (ck : Option (List String))
    (ns : List PNode) (es : List PEdge) :
    (forcesPhase mode ck ns es).length = ns.length := by
  unfold forcesPhase
  split
  · simp [gridForces]
  · split
    · simp [radialForces]
    · rw [length_attraction, length_repulsion]

theorem clampVelocity_speed_le (v : ℝ × ℝ) :
    Real.sqrt ((clampVelocity v).1 * (clampVelocity v).1
      + (clampVelocity v).2 * (clampVelocity v).2) ≤ 50 := by
  unfold clampVelocity
  set m := Real.sqrt (v.1 * v.1 + v.2 * v.2) with hm
  by_cases h1 : m < 0.1
  · simp only [if_pos h1]
    norm_num
  · simp only [if_neg h1]
    by_cases h2 : m > 50
    · simp only [if_pos h2]
      have hm0 : (0 : ℝ) < m := lt_trans (by norm_num) h2
      have hne : m ≠ 0 := ne_of_gt hm0
      have hsq : m ^ 2 = v.1 * v.1 + v.2 * v.2 := by
        rw [hm]
        exact Real.sq_sqrt (add_nonneg (mul_self_nonneg v.1) (mul_self_nonneg v.2))
      have hkey : v.1 / m * 50 * (v.1 / m * 50) + v.2 / m * 50 * (v.2 / m * 50)
          = 2500 := by
        field_simp
        nlinarith [hsq]
      rw [hkey, show (2500 : ℝ) = 50 ^ 2 by norm_num, Real.sqrt_sq (by norm_num)]
    · simp only [if_neg h2]
      exact le_of_not_lt h2

/-- C5 (confirmed): after a STEP in every layout mode, the force phase
preserves the node count and every node's post-step state is
`integrateNode` of its post-force state: the velocity is the post-centering
velocity multiplied by the damping factor 0.85, then speed-clamped — zeroed
exactly when the pre-clamp magnitude is below 0.1 — and added to the position,
and the post-step speed is at most 50. -/
theorem step_applies_damping_clamp_integration (mode : String)
    (ck : Option (List String)) (ns : List PNode) (es : List PEdge) :
    ((forcesPhase mode ck ns es).length = ns.length ∧
     (stepNodes mode ck ns es).length = ns.length) ∧
    (∀ (i : ℕ) (u : PNode), (forcesPhase mode ck ns es).get? i = some u →
      (stepNodes mode ck ns es).get? i = some (integrateNode u) ∧
      (dampedVel u).1 = (u.vx - u.x * 0.005) * 0.85 ∧
      (dampedVel u).2 = (u.vy - u.y * 0.005) * 0.85 ∧
      (integrateNode u).vx = (clampVelocity (dampedVel u)).1 ∧
      (integrateNode u).vy = (clampVelocity (dampedVel u)).2 ∧
      (integrateNode u).x = u.x + (integrateNode u).vx ∧
      (integrateNode u).y = u.y + (integrateNode u).vy ∧
      (Real.sqrt ((dampedVel u).1 * (dampedVel u).1
          + (dampedVel u).2 * (dampedVel u).2) < 0.1 →
        (integrateNode u).vx = 0 ∧ (integrateNode u).vy = 0) ∧
      Real.sqrt ((integrateNode u).vx * (integrateNode u).vx
        + (integrateNode u).vy * (integrateNode u).vy) ≤ 50) := by
  constructor
  · refine ⟨length_forcesPhase mode ck ns es, ?_⟩
    rw [stepNodes, List.length_map]
    exact length_forcesPhase mode ck ns es
  · intro i u hu
    refine ⟨?_, rfl, rfl, rfl, rfl, rfl, rfl, ?_, ?_⟩
    · rw [stepNodes, List.get?_map, hu]
      rfl
    · intro h
      constructor <;> simp [integrateNode, clampVelocity, h]
    · simpa [integrateNode] using clampVelocity_speed_le (dampedVel u)

/-- C5, witness: a single free node (position (3,4), velocity (20,0)), force
mode with no edges — the force phase is the identity here, so the hypothesis
holds with the node itself. -/
theorem step_applies_damping_clamp_integration_witness :
    (stepNodes "force" none [⟨"a", 3, 4, 20, 0, ""⟩] []).get? 0
        = some (integrateNode ⟨"a", 3, 4, 20, 0, ""⟩) ∧
    Real.sqrt ((integrateNode (⟨"a", 3, 4, 20, 0, ""⟩ : PNode)).vx
        * (integrateNode (⟨"a", 3, 4, 20, 0, ""⟩ : PNode)).vx
      + (integrateNode (⟨"a", 3, 4, 20, 0, ""⟩ : PNode)).vy
        * (integrateNode (⟨"a", 3, 4, 20, 0, ""⟩ : PNode)).vy) ≤ 50 := by
  have h := (step_applies_damping_clamp_integration "force" none
    [⟨"a", 3, 4, 20, 0, ""⟩] []).2 0 ⟨"a", 3, 4, 20, 0, ""⟩ (by rfl)
  exact ⟨h.1, h.2.2.2.2.2.2.2.2⟩

/-! ## Claim C10: unguarded spring division on coincident endpoints -/

theorem jsRepulsion_coincident_eval (px py vax vay vbx vby : ℝ) :
    jsRepulsion [⟨"a", .fin px, .fin py, .fin vax, .fin vay⟩,
                 ⟨"b", .fin px, .fin py, .fin vbx, .fin vby⟩]
      = [⟨"a", .fin px, .fin py, .fin vax, .fin vay⟩,
         ⟨"b", .fin px, .fin py, .fin vbx, .fin vby⟩] := by
  norm_num [jsRepulsion, jsApplyPair, JsNum.sub, JsNum.mul, JsNum.add,
    JsNum.div, JsNum.sqrtJ, List.range_succ, Real.sqrt_zero, List.set]

theorem jsAttraction_coincident_eval (px py vax vay vbx vby : ℝ) :
    jsAttraction [⟨"a", .fin px, .fin py, .fin vax, .fin vay⟩,
                  ⟨"b", .fin px, .fin py, .fin vbx, .fin vby⟩] [⟨"a", "b"⟩]
      = [⟨"a", .fin px, .fin py, .nan, .nan⟩,
         ⟨"b", .fin px, .fin py, .nan, .nan⟩] := by
  have hsi : jsLastIdxOf [⟨"a", .fin px, .fin py, .fin vax, .fin vay⟩,
      ⟨"b", .fin px, .fin py, .fin vbx, .fin vby⟩] "a" = some 0 := rfl
  have hti : jsLastIdxOf [⟨"a", .fin px, .fin py, .fin vax, .fin vay⟩,
      ⟨"b", .fin px, .fin py, .fin vbx, .fin vby⟩] "b" = some 1 := rfl
  norm_num [jsAttraction, jsApplyEdge, hsi, hti, JsNum.sub, JsNum.mul,
    JsNum.add, JsNum.div, JsNum.sqrtJ, Real.sqrt_zero, List.set, List.getD]

theorem jsIntegrateNode_nan_eval (nid : String) (px py : ℝ) :
    jsIntegrateNode ⟨nid, .fin px, .fin py, .nan, .nan⟩
      = ⟨nid, .nan, .nan, .nan, .nan⟩ := by
  norm_num [jsIntegrateNode, JsNum.sub, JsNum.mul, JsNum.add, JsNum.sqrtJ,
    JsNum.jgt, JsNum.jlt]

theorem jsIntegrateNode_fin_eval (nid : String) (px py vx vy : ℝ) :
    ((jsIntegrateNode ⟨nid, .fin px, .fin py, .fin vx, .fin vy⟩).vx.isFin = true) ∧
    ((jsIntegrateNode ⟨nid, .fin px, .fin py, .fin vx, .fin vy⟩).vy.isFin = true) ∧
    ((jsIntegrateNode ⟨nid, .fin px, .fin py, .fin vx, .fin vy⟩).x.isFin = true) ∧
    ((jsIntegrateNode ⟨nid, .fin px, .fin py, .fin vx, .fin vy⟩).y.isFin = true) := by
  have ha : (JsNum.fin vx).sub ((JsNum.fin px).mul (.fin 0.005)) = .fin (vx - px * 0.005) := rfl
  unfold jsIntegrateNode
  simp only [JsNum.sub, JsNum.mul, JsNum.add, JsNum.sqrtJ]
  set a := (vx - px * 0.005) * 0.85 with hadef
  set b := (vy - py * 0.005) * 0.85 with hbdef
  have hnn : ¬(a * a + b * b < 0) :=
    not_lt.mpr (add_nonneg (mul_self_nonneg a) (mul_self_nonneg b))
  simp only [if_neg hnn]
  set s := Real.sqrt (a * a + b * b) with hs
  by_cases hgt : JsNum.jgt (.fin s) (.fin 50) = true
  · have hs50 : (50 : ℝ) < s := by
      have := hgt
      simp only [JsNum.jgt, JsNum.jlt, decide_eq_true_eq] at this
      exact this
    have hsne : s ≠ 0 := ne_of_gt (lt_trans (by norm_num) hs50)
    simp only [hgt, if_true, JsNum.div, if_neg hsne, JsNum.mul, JsNum.jlt]
    by_cases hlt : decide (s < 0.1) = true
    · simp [hlt, JsNum.add, JsNum.isFin]
    · simp only [Bool.not_eq_true] at hlt
      simp [hlt, JsNum.add, JsNum.isFin]
  · simp only [Bool.not_eq_true] at hgt
    simp only [hgt, if_false, JsNum.jlt]
    by_cases hlt : decide (s < 0.1) = true
    · simp [hlt, JsNum.add, JsNum.isFin]
    · simp only [Bool.not_eq_true] at hlt
      simp [hlt, JsNum.add, JsNum.isFin]

/-- C10 (confirmed): in a force-directed STEP over JS numbers, an edge whose
endpoints occupy exactly the same position makes the unguarded spring division
compute `0/0 = NaN`, which propagates into both endpoints' velocities and then
positions (the clamp comparisons are false on NaN); repulsion alone, whose
distance carries the +0.1 epsilon, keeps every component finite for the same
coincident pair. -/
theorem spring_attraction_coincident_nan (px py vax vay vbx vby : ℝ) :
    (((jsStep [⟨"a", .fin px, .fin py, .fin vax, .fin vay⟩,
               ⟨"b", .fin px, .fin py, .fin vbx, .fin vby⟩]
        [⟨"a", "b"⟩]).getD 0 default = ⟨"a", .nan, .nan, .nan, .nan⟩) ∧
     ((jsStep [⟨"a", .fin px, .fin py, .fin vax, .fin vay⟩,
               ⟨"b", .fin px, .fin py, .fin vbx, .fin vby⟩]
        [⟨"a", "b"⟩]).getD 1 default = ⟨"b", .nan, .nan, .nan, .nan⟩)) ∧
    (∀ k : ℕ, k < 2 →
      (((jsStep [⟨"a", .fin px, .fin py, .fin vax, .fin vay⟩,
                 ⟨"b", .fin px, .fin py, .fin vbx, .fin vby⟩] []).getD k
          default).vx.isFin = true ∧
       ((jsStep [⟨"a", .fin px, .fin py, .fin vax, .fin vay⟩,
                 ⟨"b", .fin px, .fin py, .fin vbx, .fin vby⟩] []).getD k
          default).x.isFin = true)) := by
  constructor
  · have h : jsStep [⟨"a", .fin px, .fin py, .fin vax, .fin vay⟩,
        ⟨"b", .fin px, .fin py, .fin vbx, .fin vby⟩] [⟨"a", "b"⟩]
        = [⟨"a", .nan, .nan, .nan, .nan⟩, ⟨"b", .nan, .nan, .nan, .nan⟩] := by
      rw [jsStep, jsRepulsion_coincident_eval, jsAttraction_coincident_eval]
      simp [jsIntegrateNode_nan_eval]
    rw [h]
    exact ⟨rfl, rfl⟩
  · intro k hk
    have h : jsStep [⟨"a", .fin px, .fin py, .fin vax, .fin vay⟩,
        ⟨"b", .fin px, .fin py, .fin vbx, .fin vby⟩] []
        = [jsIntegrateNode ⟨"a", .fin px, .fin py, .fin vax, .fin vay⟩,
           jsIntegrateNode ⟨"b", .fin px, .fin py, .fin vbx, .fin vby⟩] := by
      rw [jsStep, jsRepulsion_coincident_eval]
      simp [jsAttraction]
    rw [h]
    interval_cases k
    · exact ⟨(jsIntegrateNode_fin_eval "a" px py vax vay).1,
        (jsIntegrateNode_fin_eval "a" px py vax vay).2.2.1⟩
    · exact ⟨(jsIntegrateNode_fin_eval "b" px py vbx vby).1,
        (jsIntegrateNode_fin_eval "b" px py vbx vby).2.2.1⟩

/-- C10, witness: concrete coincident nodes at (5, 7) with velocities (1, 2)
and (3, 4): NaN with the edge, finite without. -/
theorem spring_attraction_coincident_nan_witness :
    ((jsStep [⟨"a", .fin 5, .fin 7, .fin 1, .fin 2⟩,
              ⟨"b", .fin 5, .fin 7, .fin 3, .fin 4⟩]
        [⟨"a", "b"⟩]).getD 0 default = ⟨"a", .nan, .nan, .nan, .nan⟩) ∧
    (((jsStep [⟨"a", .fin 5, .fin 7, .fin 1, .fin 2⟩,
               ⟨"b", .fin 5, .fin 7, .fin 3, .fin 4⟩] []).getD 0
        default).vx.isFin = true) := by
  have h := spring_attraction_coincident_nan 5 7 1 2 3 4
  exact ⟨h.1.1, (h.2 0 (by norm_num)).1⟩

/-! ## Claim C7: worker handlers on empty input -/

/-- C7 (confirmed): a STEP while the node array is empty leaves the physics
worker state unchanged and posts nothing; a PROCESS whose frame has zero hands
posts an explicit RESULTS message (handCount 0, neutral zoom, no inspect
position, previous smoothed position, active set from a state-machine update
with an EMPTY detected set — no gesture newly detected) after resetting the
zoom baseline; neither handler can throw (both are total functions). -/
theorem empty_input_handlers (st : PhysState) (mode : String)
    (ck : Option (List String)) (cfg : WorkerConfig) (now : ℤ) (ws : WorkerState) :
    (st.nodes = [] → physicsOnMessage st (.STEP mode ck) = (st, none)) ∧
    (processFrame cfg now [] ws =
      ({ ws with sm := (WorkerSM.update cfg.sm ws.sm [] now).1,
                 lastPalmDist := none, lastZoomScale := 1 },
       ⟨(WorkerSM.update cfg.sm ws.sm [] now).2, ws.lastSmoothedPos, 1, none, 0⟩)) := by
  constructor
  · intro h
    unfold physicsOnMessage
    rw [h]
    rfl
  · rfl

/-- C7, witness: the concrete empty physics state and an empty frame on a
fresh worker. -/
theorem empty_input_handlers_witness :
    physicsOnMessage ⟨[], []⟩ (.STEP "force" none) = (⟨[], []⟩, none) :=
  (empty_input_handlers ⟨[], []⟩ "force" none
    ⟨0.3, 0.1, 0.2, false, ⟨100, 250⟩⟩ 0
    (workerInit ⟨0.3, 0.1, 0.2, false, ⟨100, 250⟩⟩)).1 rfl

/-! ## Claim C8: PAN deadzone and inverse-zoom scaling -/

theorem ctrlIntentStep_pan_char (cfg : CtrlConfig) (now : ℤ) (z : ℝ) (lp : Vec2)
    (sp : Vec2) (acc : List IntentEvent) (s : String) :
    ((∃ ev ∈ ctrlIntentStep cfg now z (some lp) sp acc s, ev.intent = "PAN") ↔
      ((∃ ev ∈ acc, ev.intent = "PAN") ∨
       (s = "NAV_PAN" ∧
        (|sp.x - lp.x| > cfg.panDeadzone ∨ |sp.y - lp.y| > cfg.panDeadzone)))) ∧
    (∀ ev ∈ ctrlIntentStep cfg now z (some lp) sp acc s, ev.intent = "PAN" →
      ev ∈ acc ∨
      (ev.payload "deltaX" = some ((sp.x - lp.x) * (1 / z) * 2) ∧
       ev.payload "deltaY" = some ((sp.y - lp.y) * (1 / z) * 2))) := by
  by_cases hs : s = "NAV_PAN"
  · subst hs
    by_cases hdz : |sp.x - lp.x| > cfg.panDeadzone ∨ |sp.y - lp.y| > cfg.panDeadzone
    · have hstep : ctrlIntentStep cfg now z (some lp) sp acc "NAV_PAN"
          = acc ++ [mkIntentEvent "PAN"
            [("deltaX", (sp.x - lp.x) * (1 / z) * 2),
             ("deltaY", (sp.y - lp.y) * (1 / z) * 2)] now "webcam"] := by
        unfold ctrlIntentStep
        simp [if_pos hdz]
      rw [hstep]
      constructor
      · simp only [List.mem_append, List.mem_singleton]
        constructor
        · rintro ⟨ev, hev | rfl, hint⟩
          · exact Or.inl ⟨ev, hev, hint⟩
          · exact Or.inr ⟨by trivial, hdz⟩
        · rintro (⟨ev, hev, hint⟩ | ⟨-, h⟩)
          · exact ⟨ev, Or.inl hev, hint⟩
          · exact ⟨_, Or.inr rfl, rfl⟩
      · intro ev hev hint
        rcases List.mem_append.mp hev with h | h
        · exact Or.inl h
        · rw [List.mem_singleton] at h
          subst h
          exact Or.inr ⟨rfl, rfl⟩
    · have hstep : ctrlIntentStep cfg now z (some lp) sp acc "NAV_PAN" = acc := by
        unfold ctrlIntentStep
        simp [if_neg hdz]
      rw [hstep]
      constructor
      · constructor
        · exact fun h => Or.inl h
        · rintro (h | ⟨-, h⟩)
          · exact h
          · exact absurd h hdz
      · exact fun ev hev _ => Or.inl hev
  · have hstep : ctrlIntentStep cfg now z (some lp) sp acc s = acc ∨
        (∃ ev1 : IntentEvent, ev1.intent ≠ "PAN" ∧
          ctrlIntentStep cfg now z (some lp) sp acc s = acc ++ [ev1]) := by
      unfold ctrlIntentStep
      rw [if_neg hs]
      by_cases hr : s = "PRECISION_ROTATE"
      · rw [if_pos hr]
        by_cases hrd : |sp.x - lp.x| > cfg.rotateDeadzone
        · refine Or.inr ⟨mkIntentEvent "ROTATE" [("deltaX", sp.x - lp.x)] now "webcam",
            by simp [mkIntentEvent], ?_⟩
          simp [if_pos hrd]
        · refine Or.inl ?_
          simp [if_neg hrd]
      · rw [if_neg hr]
        by_cases hl : s = "LOCK_MODE"
        · rw [if_pos hl]
          exact Or.inr ⟨mkIntentEvent "LOCK" [] now "webcam", by simp [mkIntentEvent], rfl⟩
        · rw [if_neg hl]
          exact Or.inl rfl
    rcases hstep with hstep | ⟨ev1, hne, hstep⟩ <;> rw [hstep]
    · constructor
      · constructor
        · exact fun h => Or.inl h
        · rintro (h | ⟨h, -⟩)
          · exact h
          · exact absurd h hs
      · exact fun ev hev _ => Or.inl hev
    · constructor
      · simp only [List.mem_append, List.mem_singleton]
        constructor
        · rintro ⟨ev, hev | rfl, hint⟩
          · exact Or.inl ⟨ev, hev, hint⟩
          · exact absurd hint hne
        · rintro (⟨ev, hev, hint⟩ | ⟨h, -⟩)
          · exact ⟨ev, Or.inl hev, hint⟩
          · exact absurd h hs
      · intro ev hev hint
        rcases List.mem_append.mp hev with h | h
        · exact Or.inl h
        · rw [List.mem_singleton] at h
          subst h
          exact absurd hint hne

theorem ctrlFold_pan_char (cfg : CtrlConfig) (now : ℤ) (z : ℝ) (lp : Vec2)
    (sp : Vec2) (l : List String) :
    ∀ acc : List IntentEvent,
    ((∃ ev ∈ l.foldl (ctrlIntentStep cfg now z (some lp) sp) acc, ev.intent = "PAN") ↔
      ((∃ ev ∈ acc, ev.intent = "PAN") ∨
       ("NAV_PAN" ∈ l ∧
        (|sp.x - lp.x| > cfg.panDeadzone ∨ |sp.y - lp.y| > cfg.panDeadzone)))) ∧
    (∀ ev ∈ l.foldl (ctrlIntentStep cfg now z (some lp) sp) acc, ev.intent = "PAN" →
      ev ∈ acc ∨
      (ev.payload "deltaX" = some ((sp.x - lp.x) * (1 / z) * 2) ∧
       ev.payload "deltaY" = some ((sp.y - lp.y) * (1 / z) * 2))) := by
  induction l with
  | nil =>
    intro acc
    exact ⟨by simp, fun ev hev _ => Or.inl hev⟩
  | cons s l ih =>
    intro acc
    rw [List.foldl_cons]
    obtain ⟨ih1, ih2⟩ := ih (ctrlIntentStep cfg now z (some lp) sp acc s)
    obtain ⟨hs1, hs2⟩ := ctrlIntentStep_pan_char cfg now z lp sp acc s
    constructor
    · rw [ih1, hs1]
      constructor
      · rintro ((h | ⟨rfl, hd⟩) | ⟨hmem, hd⟩)
        · exact Or.inl h
        · exact Or.inr ⟨List.mem_cons_self _ _, hd⟩
        · exact Or.inr ⟨List.mem_cons_of_mem s hmem, hd⟩
      · rintro (h | ⟨hmem, hd⟩)
        · exact Or.inl (Or.inl h)
        · rcases List.mem_cons.mp hmem with rfl | hmem'
          · exact Or.inl (Or.inr ⟨rfl, hd⟩)
          · exact Or.inr ⟨hmem', hd⟩
    · intro ev hev hint
      rcases ih2 ev hev hint with h | h
      · rcases hs2 ev h hint with h' | h'
        · exact Or.inl h'
        · exact Or.inr h'
      · exact Or.inr h

/-- C8 (confirmed): when NAV_PAN is in the confirmed active set and a previous
reference position exists, a PAN event is emitted iff the delta of the (new)
smoothed position against it exceeds the pan deadzone on at least one axis,
and every emitted PAN carries deltaX/deltaY equal to the raw deltas multiplied
by the inverse current zoom level times the fixed constant 2. -/
theorem pan_scaled_deadzone_emission (cfg : CtrlConfig) (now : ℤ)
    (st : CtrlState) (msg : ResultsMsg) (lp : Vec2)
    (hlp : st.lastPalm = some lp) (hmem : "NAV_PAN" ∈ msg.activeStates) :
    ((∃ ev ∈ (handleWorkerResults cfg now st msg).2, ev.intent = "PAN") ↔
      (|(ctrlNewSmoothed st msg.pos).x - lp.x| > cfg.panDeadzone ∨
       |(ctrlNewSmoothed st msg.pos).y - lp.y| > cfg.panDeadzone)) ∧
    (∀ ev ∈ (handleWorkerResults cfg now st msg).2, ev.intent = "PAN" →
      (ev.payload "deltaX"
          = some (((ctrlNewSmoothed st msg.pos).x - lp.x) * (1 / st.zoomLevel) * 2) ∧
       ev.payload "deltaY"
          = some (((ctrlNewSmoothed st msg.pos).y - lp.y) * (1 / st.zoomLevel) * 2))) := by
  have hev1 : ∀ ev ∈ (match msg.pos with
      | some _ => [mkIntentEvent "HOVER_FOCUS"
          [("x", (ctrlNewSmoothed st msg.pos).x), ("y", (ctrlNewSmoothed st msg.pos).y)]
          now "webcam"]
      | none => ([] : List IntentEvent)), ev.intent ≠ "PAN" := by
    cases msg.pos with
    | none => intro ev hev; cases hev
    | some p =>
      intro ev hev
      rw [List.mem_singleton] at hev
      subst hev
      simp [mkIntentEvent]
  have hev3 : ∀ ev ∈ (if msg.zoomScale ≠ 0 ∧ msg.zoomScale ≠ 1 ∧
        |msg.zoomScale - 1| > cfg.zoomDeadzone then
      [mkIntentEvent "ZOOM" [("scale", msg.zoomScale)] now "webcam"]
    else ([] : List IntentEvent)), ev.intent ≠ "PAN" := by
    split
    · intro ev hev
      rw [List.mem_singleton] at hev
      subst hev
      simp [mkIntentEvent]
    · intro ev hev; cases hev
  obtain ⟨hf1, hf2⟩ := ctrlFold_pan_char cfg now st.zoomLevel lp
    (ctrlNewSmoothed st msg.pos) msg.activeStates []
  have hout : (handleWorkerResults cfg now st msg).2 =
      (match msg.pos with
        | some _ => [mkIntentEvent "HOVER_FOCUS"
            [("x", (ctrlNewSmoothed st msg.pos).x), ("y", (ctrlNewSmoothed st msg.pos).y)]
            now "webcam"]
        | none => ([] : List IntentEvent)) ++
      msg.activeStates.foldl
        (ctrlIntentStep cfg now st.zoomLevel (some lp) (ctrlNewSmoothed st msg.pos)) [] ++
      (if msg.zoomScale ≠ 0 ∧ msg.zoomScale ≠ 1 ∧
          |msg.zoomScale - 1| > cfg.zoomDeadzone then
        [mkIntentEvent "ZOOM" [("scale", msg.zoomScale)] now "webcam"]
      else ([] : List IntentEvent)) := by
    unfold handleWorkerResults
    rw [hlp]
  constructor
  · rw [hout]
    constructor
    · rintro ⟨ev, hev, hint⟩
      rcases List.mem_append.mp hev with h12 | h3
      · rcases List.mem_append.mp h12 with h1 | h2
        · exact absurd hint (hev1 ev h1)
        · rcases hf1.mp ⟨ev, h2, hint⟩ with ⟨ev2, hev2, -⟩ | ⟨-, hd⟩
          · cases hev2
          · exact hd
      · exact absurd hint (hev3 ev h3)
    · intro hd
      obtain ⟨ev, hev, hint⟩ := hf1.mpr (Or.inr ⟨hmem, hd⟩)
      exact ⟨ev, List.mem_append.mpr (Or.inl (List.mem_append.mpr (Or.inr hev))), hint⟩
  · rw [hout]
    intro ev hev hint
    rcases List.mem_append.mp hev with h12 | h3
    · rcases List.mem_append.mp h12 with h1 | h2
      · exact absurd hint (hev1 ev h1)
      · rcases hf2 ev h2 hint with h | h
        · cases h
        · exact h
    · exact absurd hint (hev3 ev h3)

/-- C8, witness: concrete state (zoom level 2, previous position (0.5, 0.5)),
a message whose clamped position is (0.6, 0.5) with NAV_PAN active and the
default pan deadzone 0.005 — the delta 0.1 exceeds the deadzone. -/
theorem pan_scaled_deadzone_emission_witness :
    (∃ ev ∈ (handleWorkerResults ⟨0.005, 0.003, 0.002⟩ 0
        ⟨2, some ⟨0.5, 0.5⟩, ⟨0.5, 0.5⟩⟩
        ⟨["NAV_PAN"], some ⟨0.6, 0.5⟩, 1, none, 1⟩).2, ev.intent = "PAN") ↔
      (|(ctrlNewSmoothed ⟨2, some ⟨0.5, 0.5⟩, ⟨0.5, 0.5⟩⟩
          (some ⟨0.6, 0.5⟩)).x - (0.5 : ℝ)| > (0.005 : ℝ) ∨
       |(ctrlNewSmoothed ⟨2, some ⟨0.5, 0.5⟩, ⟨0.5, 0.5⟩⟩
          (some ⟨0.6, 0.5⟩)).y - (0.5 : ℝ)| > (0.005 : ℝ)) := by
  have h := pan_scaled_deadzone_emission ⟨0.005, 0.003, 0.002⟩ 0
    ⟨2, some ⟨0.5, 0.5⟩, ⟨0.5, 0.5⟩⟩ ⟨["NAV_PAN"], some ⟨0.6, 0.5⟩, 1, none, 1⟩
    ⟨0.5, 0.5⟩ rfl (by simp)
  exact h.1

/-! ## Claim C3: emitted smoothed position -/

theorem classifyHand_const (p : Pt3) :
    classifyHand (fun _ => p) = ⟨false, false, true, false, ⟨p.x, p.y⟩⟩ := by
  have hd : ∀ a : ℕ, wDistance ((fun _ : ℕ => p) a).xy ((fun _ : ℕ => p) a).xy = 0 := by
    intro a
    simp [wDistance]
  have hext : ∀ t q m : ℕ, wIsExtended (fun _ => p) t q m = false := by
    intro t q m
    rw [wIsExtended, decide_eq_false_iff_not]
    norm_num [wDistance]
  have hcent : wCentroid [p.xy, p.xy, p.xy] = p.xy := by
    simp only [wCentroid, List.map_cons, List.map_nil, List.sum_cons, List.sum_nil,
      List.length_cons, List.length_nil, Pt3.xy]
    congr 1 <;> · push_cast; ring
  have hfist : wIsFist (fun _ => p) = true := by
    rw [wIsFist]
    rw [show wCentroid [((fun _ : ℕ => p) 0).xy, ((fun _ : ℕ => p) 5).xy,
        ((fun _ : ℕ => p) 9).xy] = p.xy from hcent]
    rw [decide_eq_true_eq]
    norm_num [wDistance]
  unfold classifyHand wIsPointing wIsTwoFingerPoint wIsOpenPalm
  rw [hfist]
  simp only [hext, Bool.false_and, Bool.and_false]
  refine congrArg _ ?_  -- remaining: the pos component
  exact hcent

theorem processFrame_single (cfg : WorkerConfig) (now : ℤ) (h : Hand)
    (st : WorkerState) (hadapt : cfg.adaptiveSmoothing = false) :
    processFrame cfg now [h] st =
      ({ sm := (WorkerSM.update cfg.sm st.sm
            (rawDetectedOf [classifyHand h] false) now).1,
         smoother := (st.smoother.update
            ⟨1 - (classifyHand h).pos.x, (classifyHand h).pos.y⟩).1,
         zoomSmoother := st.zoomSmoother,
         lastPalmDist := none,
         lastSmoothedPos := some (st.smoother.update
            ⟨1 - (classifyHand h).pos.x, (classifyHand h).pos.y⟩).2,
         lastZoomScale := 1 },
       ⟨(WorkerSM.update cfg.sm st.sm
            (rawDetectedOf [classifyHand h] false) now).2,
        some (st.smoother.update
            ⟨1 - (classifyHand h).pos.x, (classifyHand h).pos.y⟩).2,
        1, none, 1⟩) := by
  have hadj : adjustedSmoother cfg st (rawPalmOf [h]) = st.smoother := by
    unfold adjustedSmoother
    rw [hadapt]
  have hraw : rawPalmOf [h] = (classifyHand h).pos := by
    unfold rawPalmOf
    norm_num [List.getD_cons_zero]
  unfold processFrame
  dsimp only
  simp only [List.map_cons, List.map_nil]
  rw [show inspectPosOf [classifyHand h] = none from rfl]
  rw [hadj, hraw]
  norm_num [Option.isSome]

theorem clamp01_mem (t : ℝ) : 0 ≤ clamp01 t ∧ clamp01 t ≤ 1 :=
  ⟨le_max_left 0 _, max_le (by norm_num) (min_le_left 1 t)⟩

/-- C3 (amended): for every frame with at least one hand, the worker emits
exactly the x-mirrored reference position fed through the (possibly
adaptive-alpha) double-exponential smoother, with NO clamping — the emitted
value can leave [0,1]; it is the controller that clamps the received position
to [0,1] on both axes before re-emitting it, so the controller's position is
the clamp of the smoother output (not necessarily the smoother output
itself). -/
theorem pipeline_position_amended :
    (∀ (cfg : WorkerConfig) (now : ℤ) (h0 : Hand) (rest : List Hand)
        (st : WorkerState),
      (processFrame cfg now (h0 :: rest) st).2.pos
        = some ((adjustedSmoother cfg st (rawPalmOf (h0 :: rest))).update
            ⟨1 - (rawPalmOf (h0 :: rest)).x, (rawPalmOf (h0 :: rest)).y⟩).2) ∧
    (∀ (ccfg : CtrlConfig) (cnow : ℤ) (cst : CtrlState) (msg : ResultsMsg)
        (p : Vec2), msg.pos = some p →
      (handleWorkerResults ccfg cnow cst msg).1.smoothedPosition
          = ⟨clamp01 p.x, clamp01 p.y⟩ ∧
      0 ≤ (handleWorkerResults ccfg cnow cst msg).1.smoothedPosition.x ∧
      (handleWorkerResults ccfg cnow cst msg).1.smoothedPosition.x ≤ 1 ∧
      0 ≤ (handleWorkerResults ccfg cnow cst msg).1.smoothedPosition.y ∧
      (handleWorkerResults ccfg cnow cst msg).1.smoothedPosition.y ≤ 1) := by
  constructor
  · intro cfg now h0 rest st
    rfl
  · intro ccfg cnow cst msg p hp
    have hsp : (handleWorkerResults ccfg cnow cst msg).1.smoothedPosition
        = ⟨clamp01 p.x, clamp01 p.y⟩ := by
      unfold handleWorkerResults ctrlNewSmoothed
      rw [hp]
    rw [hsp]
    exact ⟨rfl, (clamp01_mem p.x).1, (clamp01_mem p.x).2,
      (clamp01_mem p.y).1, (clamp01_mem p.y).2⟩

/-- C3, witness for the amended theorem: a message carrying the out-of-range
position (2, -1) yields the clamped controller position (1, 0). -/
theorem pipeline_position_amended_witness :
    (handleWorkerResults ⟨0.005, 0.003, 0.002⟩ 0 ⟨1, none, ⟨0, 0⟩⟩
        ⟨[], some ⟨2, -1⟩, 1, none, 1⟩).1.smoothedPosition
      = ⟨clamp01 2, clamp01 (-1)⟩ := by
  have h := (pipeline_position_amended).2 ⟨0.005, 0.003, 0.002⟩ 0
    ⟨1, none, ⟨0, 0⟩⟩ ⟨[], some ⟨2, -1⟩, 1, none, 1⟩ ⟨2, -1⟩ rfl
  exact h.1

/-- C3, counterexample.  Feeding the pipeline one frame with the hand at x = 1
(mirrored reference 0) and then six frames with the hand at x = 0 (mirrored
reference 1) — all landmark coordinates inside [0,1] — makes the worker's
seventh emitted position x = 100564973451/100000000000 > 1: the emitted
smoothed position does NOT lie within [0,1] (the Holt trend overshoots and
the worker does not clamp). -/
theorem pipeline_position_counterexample :
    ((processFrame cfgC3 0 [handB]
      (processFrame cfgC3 0 [handB]
      (processFrame cfgC3 0 [handB]
      (processFrame cfgC3 0 [handB]
      (processFrame cfgC3 0 [handB]
      (processFrame cfgC3 0 [handB]
      (processFrame cfgC3 0 [handA] (workerInit cfgC3)).1).1).1).1).1).1).2.pos
      = some ⟨100564973451 / 100000000000, 0⟩) ∧
    ((1 : ℝ) < 100564973451 / 100000000000) := by
  have hA : classifyHand handA = ⟨false, false, true, false, ⟨1, 0⟩⟩ := by
    simpa [handA] using classifyHand_const ⟨1, 0, 0⟩
  have hB : classifyHand handB = ⟨false, false, true, false, ⟨0, 0⟩⟩ := by
    simpa [handB] using classifyHand_const ⟨0, 0, 0⟩
  have hrawA : rawDetectedOf [(⟨false, false, true, false, ⟨1, 0⟩⟩ : HandState)]
      false = ["LOCK_MODE"] := by decide
  have hrawB : rawDetectedOf [(⟨false, false, true, false, ⟨0, 0⟩⟩ : HandState)]
      false = ["LOCK_MODE"] := by decide
  have hsm0 : WorkerSM.update ⟨100, 250⟩ ⟨[]⟩ ["LOCK_MODE"] 0
      = (⟨[("LOCK_MODE", ⟨0, 0⟩)]⟩, []) := by decide
  have hsm1 : WorkerSM.update ⟨100, 250⟩ ⟨[("LOCK_MODE", ⟨0, 0⟩)]⟩ ["LOCK_MODE"] 0
      = (⟨[("LOCK_MODE", ⟨0, 0⟩)]⟩, []) := by decide
  have e1 : processFrame cfgC3 0 [handA] (workerInit cfgC3)
      = (⟨⟨[("LOCK_MODE", ⟨0, 0⟩)]⟩, ⟨0.3, 0.1, some ⟨0, 0⟩, ⟨0, 0⟩⟩,
          ⟨0.2, 0.05, none, ⟨0, 0⟩⟩, none, some ⟨0, 0⟩, 1⟩,
         ⟨[], some ⟨0, 0⟩, 1, none, 1⟩) := by
    rw [processFrame_single cfgC3 0 handA _ rfl, hA, hrawA]
    norm_num [cfgC3, workerInit, Smoother.new, Smoother.update, hsm0]
  have stepB : ∀ s b : ℝ,
      processFrame cfgC3 0 [handB]
        ⟨⟨[("LOCK_MODE", ⟨0, 0⟩)]⟩, ⟨0.3, 0.1, some ⟨s, 0⟩, ⟨b, 0⟩⟩,
         ⟨0.2, 0.05, none, ⟨0, 0⟩⟩, none, some ⟨s, 0⟩, 1⟩
      = (⟨⟨[("LOCK_MODE", ⟨0, 0⟩)]⟩,
          ⟨0.3, 0.1, some ⟨0.3 + 0.7 * (s + b), 0⟩,
           ⟨0.1 * (0.3 + 0.7 * (s + b) - s) + 0.9 * b, 0⟩⟩,
          ⟨0.2, 0.05, none, ⟨0, 0⟩⟩, none,
          some ⟨0.3 + 0.7 * (s + b), 0⟩, 1⟩,
         ⟨[], some ⟨0.3 + 0.7 * (s + b), 0⟩, 1, none, 1⟩) := by
    intro s b
    rw [processFrame_single cfgC3 0 handB _ rfl, hB, hrawB]
    norm_num [cfgC3, Smoother.update, hsm1]
  rw [e1]
  dsimp only
  rw [stepB (0) (0)]
  dsimp only
  rw [show (0.1 * (0.3 + 0.7 * ((0 : ℝ) + 0) - (0)) + 0.9 * (0) : ℝ)
        = 3 / 100 by norm_num]
  rw [show (0.3 + 0.7 * ((0 : ℝ) + 0) : ℝ) = 3 / 10 by norm_num]
  rw [stepB (3 / 10) (3 / 100)]
  dsimp only
  rw [show (0.1 * (0.3 + 0.7 * ((3 / 10 : ℝ) + 3 / 100) - (3 / 10)) + 0.9 * (3 / 100) : ℝ)
        = 501 / 10000 by norm_num]
  rw [show (0.3 + 0.7 * ((3 / 10 : ℝ) + 3 / 100) : ℝ) = 531 / 1000 by norm_num]
  rw [stepB (531 / 1000) (501 / 10000)]
  dsimp only
  rw [show (0.1 * (0.3 + 0.7 * ((531 / 1000 : ℝ) + 501 / 10000) - (531 / 1000)) + 0.9 * (501 / 10000) : ℝ)
        = 62667 / 1000000 by norm_num]
  rw [show (0.3 + 0.7 * ((531 / 1000 : ℝ) + 501 / 10000) : ℝ) = 70677 / 100000 by norm_num]
  rw [stepB (70677 / 100000) (62667 / 1000000)]
  dsimp only
  rw [show (0.1 * (0.3 + 0.7 * ((70677 / 100000 : ℝ) + 62667 / 1000000) - (70677 / 100000)) + 0.9 * (62667 / 1000000) : ℝ)
        = 6958389 / 100000000 by norm_num]
  rw [show (0.3 + 0.7 * ((70677 / 100000 : ℝ) + 62667 / 1000000) : ℝ) = 8386059 / 10000000 by norm_num]
  rw [stepB (8386059 / 10000000) (6958389 / 100000000)]
  dsimp only
  rw [show (0.1 * (0.3 + 0.7 * ((8386059 / 10000000 : ℝ) + 6958389 / 100000000) - (8386059 / 10000000)) + 0.9 * (6958389 / 100000000) : ℝ)
        = 723381963 / 10000000000 by norm_num]
  rw [show (0.3 + 0.7 * ((8386059 / 10000000 : ℝ) + 6958389 / 100000000) : ℝ) = 935732853 / 1000000000 by norm_num]
  rw [stepB (935732853 / 1000000000) (723381963 / 10000000000)]
  dsimp only
  constructor
  · norm_num
  · norm_num

end NeuroChain
